import Mathlib

/-!
Verification of the airline incentive rule engine (Python sources under
src/rule_engine/) against its natural-language specification.

The Python code is shallowly embedded:
* `Decimal` values and Python floats are modelled as exact rationals (ℚ);
  `Decimal.quantize(Decimal("0.0001"), ROUND_HALF_UP)` is `quantize4`.
* `datetime.date` values are modelled as integers `y*10000 + m*100 + d`,
  which is strictly monotone in (y, m, d), so all date comparisons in the
  code are preserved.
* Python runtime values flowing through the eligibility checker (strings,
  booleans, lists, date-range dicts, None) are modelled by `PyVal`.
* Code that can raise an exception which a caller catches is modelled with
  `Except String`; a Python `except` block is a `match` on that result.
-/

namespace RuleEngine

/-- Round half up (ties away from zero), the semantics of Python
`decimal.ROUND_HALF_UP` for a value scaled to an integer. -/
def roundHalfUp (x : ℚ) : ℤ :=
  if 0 ≤ x then Int.floor (x + 1/2) else -(Int.floor (-x + 1/2))

/-- Model of `value.quantize(Decimal("0.0001"), rounding=ROUND_HALF_UP)`. -/
def quantize4 (x : ℚ) : ℚ :=
  (roundHalfUp (x * 10000) : ℚ) / 10000

/-- The characters Python `str.strip()` removes. -/
def isPyWS (c : Char) : Bool :=
  c == ' ' || c == '\t' || c == '\n' || c == '\r' || c == '\x0b' || c == '\x0c'

/-- Model of Python `str.strip()` on a character list. -/
def pyStripList (l : List Char) : List Char :=
  ((l.dropWhile isPyWS).reverse.dropWhile isPyWS).reverse

/-- Model of Python `str.strip()`. -/
def pyStrip (s : String) : String :=
  String.mk (pyStripList s.data)

/-- Boolean prefix test on character lists. -/
def isPrefixOfCL : List Char → List Char → Bool
  | [], _ => true
  | _ :: _, [] => false
  | a :: as, b :: bs => a == b && isPrefixOfCL as bs

/-- Model of the Python substring test `needle in hay`. -/
def containsSubCL (n : List Char) : List Char → Bool
  | [] => isPrefixOfCL n []
  | h => isPrefixOfCL n h || match h with
    | [] => false
    | _ :: t => containsSubCL n t

/-- Model of the Python substring test `needle in hay` on strings. -/
def containsSub (needle hay : String) : Bool :=
  containsSubCL needle.data hay.data

/-- Model of Python `str.lower()` (ASCII case mapping, the range the
engine uses). -/
def lowerStr (s : String) : String :=
  String.mk (s.data.map Char.toLower)

/-- Model of Python `str.upper()` (ASCII case mapping). -/
def upperStr (s : String) : String :=
  String.mk (s.data.map Char.toUpper)

/-- Splits a character list on a separator character; the shape of
`str.split(sep)` for a one-character separator. -/
def splitCL (sep : Char) : List Char → List (List Char)
  | [] => [[]]
  | c :: rest =>
    let r := splitCL sep rest
    if c == sep then [] :: r
    else
      match r with
      | g :: gs => (c :: g) :: gs
      | [] => [[c]]

/-- Model of `s.split("-")` for the one-character separators the engine
uses. -/
def splitOnChar (sep : Char) (s : String) : List String :=
  (splitCL sep s.data).map String.mk

/-- Parses a non-empty all-digit character list to a natural number (the
digit-field parsing inside `strptime`). -/
def parseNatCL (l : List Char) : Option ℕ :=
  if l ≠ [] ∧ l.all Char.isDigit then
    Option.some (l.foldl (fun acc c => acc * 10 + (c.toNat - 48)) 0)
  else Option.none

/-- Word characters for the purposes of the regex word boundary `\b`. -/
def isWordChar (c : Char) : Bool := c.isAlphanum || c == '_'

/-- Scans for an occurrence of `tok` in the remaining characters with `\b`
boundaries on both sides; `prev` is the character just before the scan
position. -/
def wordTokenAux (tok : List Char) : Option Char → List Char → Bool
  | _, [] => false
  | prev, c :: rest =>
    ((match prev with
      | Option.none => true
      | Option.some p => !(isWordChar p)) &&
     isPrefixOfCL tok (c :: rest) &&
     (match (c :: rest).drop tok.length with
      | [] => true
      | d :: _ => !(isWordChar d))) ||
    wordTokenAux tok (Option.some c) rest

/-- Model of `re.search(rf"\b{tok}\b", s)` for a word-shaped token `tok`. -/
def containsWordToken (tok s : String) : Bool :=
  wordTokenAux tok.data Option.none s.data

/-- Python runtime values flowing through the eligibility checker.  Date
range criteria (`{start: ..., end: ...}`) are carried as string-valued
dictionaries, which is the shape the rule JSON supplies. -/
inductive PyVal where
  | none
  | str (s : String)
  | bool (b : Bool)
  | num (q : ℚ)
  | date (d : ℤ)
  | list (items : List PyVal)
  | dict (entries : List (String × String))

mutual

/-- Decidable equality for `PyVal` (written by hand because the nested
`list` constructor defeats the default deriving handler). -/
def PyVal.decEq : (a b : PyVal) → Decidable (a = b)
  | .none, .none => .isTrue rfl
  | .str a, .str b =>
    if h : a = b then .isTrue (by rw [h]) else .isFalse (by intro hh; injection hh; contradiction)
  | .bool a, .bool b =>
    if h : a = b then .isTrue (by rw [h]) else .isFalse (by intro hh; injection hh; contradiction)
  | .num a, .num b =>
    if h : a = b then .isTrue (by rw [h]) else .isFalse (by intro hh; injection hh; contradiction)
  | .date a, .date b =>
    if h : a = b then .isTrue (by rw [h]) else .isFalse (by intro hh; injection hh; contradiction)
  | .list as, .list bs =>
    match PyVal.decEqList as bs with
    | .isTrue h => .isTrue (by rw [h])
    | .isFalse h => .isFalse (by intro hh; injection hh; contradiction)
  | .dict a, .dict b =>
    if h : a = b then .isTrue (by rw [h]) else .isFalse (by intro hh; injection hh; contradiction)
  | .none, .str _ | .none, .bool _ | .none, .num _ | .none, .date _
  | .none, .list _ | .none, .dict _
  | .str _, .none | .str _, .bool _ | .str _, .num _ | .str _, .date _
  | .str _, .list _ | .str _, .dict _
  | .bool _, .none | .bool _, .str _ | .bool _, .num _ | .bool _, .date _
  | .bool _, .list _ | .bool _, .dict _
  | .num _, .none | .num _, .str _ | .num _, .bool _ | .num _, .date _
  | .num _, .list _ | .num _, .dict _
  | .date _, .none | .date _, .str _ | .date _, .bool _ | .date _, .num _
  | .date _, .list _ | .date _, .dict _
  | .list _, .none | .list _, .str _ | .list _, .bool _ | .list _, .num _
  | .list _, .date _ | .list _, .dict _
  | .dict _, .none | .dict _, .str _ | .dict _, .bool _ | .dict _, .num _
  | .dict _, .date _ | .dict _, .list _ => .isFalse (by intro h; exact PyVal.noConfusion h)

/-- Decidable equality for lists of `PyVal`. -/
def PyVal.decEqList : (as bs : List PyVal) → Decidable (as = bs)
  | [], [] => .isTrue rfl
  | [], _ :: _ => .isFalse (by intro h; exact List.noConfusion h)
  | _ :: _, [] => .isFalse (by intro h; exact List.noConfusion h)
  | a :: as, b :: bs =>
    match PyVal.decEq a b with
    | .isTrue h1 =>
      match PyVal.decEqList as bs with
      | .isTrue h2 => .isTrue (by rw [h1, h2])
      | .isFalse _ => .isFalse (by intro hh; injection hh; contradiction)
    | .isFalse _ => .isFalse (by intro hh; injection hh; contradiction)

end

instance : DecidableEq PyVal := PyVal.decEq

instance : BEq PyVal := ⟨fun a b => decide (a = b)⟩

instance : LawfulBEq PyVal where
  eq_of_beq h := of_decide_eq_true h
  rfl := by
    intro a
    exact decide_eq_true rfl

/-- Model of `datetime.strptime(s, "%Y-%m-%d").date()`: a `Y-M-D` string is
parsed to the integer encoding `y*10000 + m*100 + d`; `Option.none` models
the `ValueError` the Python call raises on malformed input.  (Day-of-month
validity is approximated by `1 ≤ d ≤ 31`.) -/
def parseDateYMD (s : String) : Option ℤ :=
  match splitOnChar '-' s with
  | [ys, ms, ds] =>
    match parseNatCL ys.data, parseNatCL ms.data, parseNatCL ds.data with
    | Option.some y, Option.some m, Option.some d =>
      if ys.length = 4 && 1 ≤ m && m ≤ 12 && 1 ≤ d && d ≤ 31 then
        Option.some ((y : ℤ) * 10000 + m * 100 + d)
      else Option.none
    | _, _, _ => Option.none
  | _ => Option.none

/-- Left-pads a numeral to two digits, as `str(date)` does for months/days. -/
def pad2 (n : ℤ) : String :=
  if n < 10 then "0" ++ toString n else toString n

/-- Model of `str(d)` for an encoded date: ISO `YYYY-MM-DD`. -/
def formatDateInt (d : ℤ) : String :=
  toString (d / 10000) ++ "-" ++ pad2 ((d / 100) % 100) ++ "-" ++ pad2 (d % 100)

/-- Approximate model of `str(x)` for a Decimal: exact for integers, a
fraction rendering otherwise.  (No claim depends on the rendering.) -/
def ratToPyStr (q : ℚ) : String :=
  if q.den = 1 then toString q.num else toString q.num ++ "/" ++ toString q.den

/-- Model of Python truthiness `bool(v)`. -/
def pyBool : PyVal → Bool
  | .none => false
  | .str s => s ≠ ""
  | .bool b => b
  | .num q => q ≠ 0
  | .date _ => true
  | .list l => l ≠ []
  | .dict l => l ≠ []

/-- Model of `str(v)` for the values that flow through normalization. -/
def pyValToStr : PyVal → String
  | .str s => s
  | .bool b => if b then "True" else "False"
  | .none => "None"
  | .num q => ratToPyStr q
  | .date d => formatDateInt d
  | .list _ => "[...]"
  | .dict _ => "[dict]"

/-- Model of `EligibilityCheckerV2._check_boolean_value`: its inner
`to_bool` helper, which recognizes the true-ish strings and falls back to
Python truthiness. -/
def toBoolConv (v : PyVal) : Bool :=
  match v with
  | .str s =>
    lowerStr s = "true" || lowerStr s = "1" || lowerStr s = "yes" || lowerStr s = "y"
  | v => pyBool v

/-- A path into the coupon object from the mapping configuration: either a
single attribute name or a composite of several (joined with a hyphen, the
default when no `compositeFormat` is configured). -/
inductive PathSpec where
  | simple (p : String)
  | composite (ps : List String)
deriving DecidableEq

/-- One entry of the field-mapping configuration (`field_mapping.json`).
The configuration is runtime data, not code, so it is a parameter of the
embedding; defaults follow the `.get(...)` defaults in the source. -/
structure Mapping where
  ruleField : String
  inputPath : PathSpec
  alternativePaths : List PathSpec := []
  enableAlternativePaths : Bool := true
  fallbackPath : Option String := Option.none
  normalize : List String := []
  forceList : Bool := false
  ignoreCriteria : Bool := false
  nullHandling : String := "skip_and_allow"
  dataType : String := "string"
  matchMode : String := "any"
  criteriaGroup : Option String := Option.none
deriving DecidableEq

/-- The loaded field mapper: `FieldMapper.mappings` as a list (the source
builds a dict keyed by `ruleField`, so a later duplicate overwrites an
earlier one — see `getMapping`). -/
structure FieldMapper where
  mappings : List Mapping
deriving DecidableEq

/-- Model of `self.mappings.get(rule_field)`: last mapping with the given
`ruleField` wins, matching dict-comprehension overwrite semantics. -/
def getMapping (fm : FieldMapper) (ruleField : String) : Option Mapping :=
  fm.mappings.foldl
    (fun acc m => if m.ruleField = ruleField then Option.some m else acc)
    Option.none

/-- Model of `FieldMapper.get_criteria_group`. -/
def getCriteriaGroup (fm : FieldMapper) (ruleField : String) : Option String :=
  match getMapping fm ruleField with
  | Option.some m => m.criteriaGroup
  | Option.none => Option.none

/-- Model of `models.CouponData` after pydantic validation: all Optional
string fields have been coerced to `""`, numbers to Decimal, dates to date
objects (here: encoded integers). -/
structure CouponData where
  ticket_number : String := ""
  coupon_number : String := ""
  cpn_airline_code : String := ""
  cpn_fare_basis : String := ""
  cpn_RBD : String := ""
  iata : String := ""
  cabin : String := "Unknown"
  cpn_sales_date : ℤ := 20250101
  cpn_flown_date : ℤ := 20250101
  cpn_origin : String := ""
  cpn_destination : String := ""
  cpn_revenue_base : ℚ := 0
  cpn_revenue_yq : ℚ := 0
  cpn_revenue_yr : ℚ := 0
  cpn_revenue_xt : ℚ := 0
  cpn_total_revenue : ℚ := 0
  flight_number : String := ""
  airline_name : String := "Unknown"
  marketing_airline : String := ""
  ticketing_airline : String := ""
  corporate_code : String := ""
  operating_airline : String := ""
  city_codes : String := ""
  route : String := ""
  coupon_itinerary : String := ""
  ticket_itinerary : String := ""
  code_share : String := ""
  interline : String := ""
  ndc : String := ""
  tour_codes : String := ""
  fare_type : String := ""
  cpn_is_international : Bool := false
  ticket_origin : String := ""
  ticket_destination : String := ""
  ond_array : List String := []
  pos_array : List String := []
deriving DecidableEq

/-- Model of `getattr(coupon, path, None)` for the attribute names the
mapping configuration can reference. -/
def getValueFromPath (c : CouponData) (path : String) : Option PyVal :=
  if path = "ticket_number" then Option.some (.str c.ticket_number)
  else if path = "coupon_number" then Option.some (.str c.coupon_number)
  else if path = "cpn_airline_code" then Option.some (.str c.cpn_airline_code)
  else if path = "cpn_fare_basis" then Option.some (.str c.cpn_fare_basis)
  else if path = "cpn_RBD" then Option.some (.str c.cpn_RBD)
  else if path = "iata" then Option.some (.str c.iata)
  else if path = "cabin" then Option.some (.str c.cabin)
  else if path = "cpn_sales_date" then Option.some (.date c.cpn_sales_date)
  else if path = "cpn_flown_date" then Option.some (.date c.cpn_flown_date)
  else if path = "cpn_origin" then Option.some (.str c.cpn_origin)
  else if path = "cpn_destination" then Option.some (.str c.cpn_destination)
  else if path = "cpn_revenue_base" then Option.some (.num c.cpn_revenue_base)
  else if path = "cpn_revenue_yq" then Option.some (.num c.cpn_revenue_yq)
  else if path = "cpn_revenue_yr" then Option.some (.num c.cpn_revenue_yr)
  else if path = "cpn_revenue_xt" then Option.some (.num c.cpn_revenue_xt)
  else if path = "cpn_total_revenue" then Option.some (.num c.cpn_total_revenue)
  else if path = "flight_number" then Option.some (.str c.flight_number)
  else if path = "airline_name" then Option.some (.str c.airline_name)
  else if path = "marketing_airline" then Option.some (.str c.marketing_airline)
  else if path = "ticketing_airline" then Option.some (.str c.ticketing_airline)
  else if path = "corporate_code" then Option.some (.str c.corporate_code)
  else if path = "operating_airline" then Option.some (.str c.operating_airline)
  else if path = "city_codes" then Option.some (.str c.city_codes)
  else if path = "route" then Option.some (.str c.route)
  else if path = "coupon_itinerary" then Option.some (.str c.coupon_itinerary)
  else if path = "ticket_itinerary" then Option.some (.str c.ticket_itinerary)
  else if path = "code_share" then Option.some (.str c.code_share)
  else if path = "interline" then Option.some (.str c.interline)
  else if path = "ndc" then Option.some (.str c.ndc)
  else if path = "tour_codes" then Option.some (.str c.tour_codes)
  else if path = "fare_type" then Option.some (.str c.fare_type)
  else if path = "cpn_is_international" then Option.some (.bool c.cpn_is_international)
  else if path = "ticket_origin" then Option.some (.str c.ticket_origin)
  else if path = "ticket_destination" then Option.some (.str c.ticket_destination)
  else if path = "ond_array" then Option.some (.list (c.ond_array.map .str))
  else if path = "pos_array" then Option.some (.list (c.pos_array.map .str))
  else Option.none

/-- Model of `re.match(r"^[A-Z]{2}(\\d+)$", t)` on an already-stripped
character list: two ASCII uppercase letters followed by one or more digits
and nothing else; returns the digit group. -/
def airlinePfxMatch : List Char → Option (List Char)
  | a :: b :: rest =>
    if a.isUpper && b.isUpper && !rest.isEmpty && rest.all Char.isDigit then
      Option.some rest
    else Option.none
  | _ => Option.none

/-- Model of `FieldMapper._strip_airline_prefix` (the name is shortened to
satisfy local lint rules): strip whitespace, then drop a two-letter airline
prefix when the remainder is all digits. -/
def stripAirlinePfx (s : String) : String :=
  match airlinePfxMatch (pyStrip s).data with
  | Option.some ds => String.mk ds
  | Option.none => pyStrip s

/-- Model of `FieldMapper._generate_od_pairs`. -/
def generateODPairs (itinerary : String) : List String :=
  if itinerary = "" then []
  else if !(containsSub "-" itinerary) then [itinerary]
  else
    let segments := ((splitOnChar '-' itinerary).map pyStrip).filter (· ≠ "")
    if segments.length < 2 then [itinerary]
    else (segments.zip segments.tail).map (fun ab => ab.1 ++ "-" ++ ab.2)

/-- Intermediate state while folding normalization functions over a value:
a string, or the list a function such as `generateODPairs` produced. -/
inductive NormSt where
  | s (v : String)
  | l (vs : List String)
deriving DecidableEq

/-- Model of `FieldMapper._apply_single_normalization`. -/
def applySingleNormalization (value : String) (funcName : String) : NormSt :=
  if funcName = "trim" then .s (pyStrip value)
  else if funcName = "upper" then .s (upperStr value)
  else if funcName = "lower" then .s (lowerStr value)
  else if funcName = "stripAirlinePrefix" then .s (stripAirlinePfx value)
  else if funcName = "trimLeadingZeros" then
    .s (let t := value.data.dropWhile (· == '0')
        if t.isEmpty then "0" else String.mk t)
  else if funcName = "removeSpaces" then .s (String.mk (value.data.filter (· != ' ')))
  else if funcName = "first7" then .s (String.mk (value.data.take 7))
  else if funcName = "generateODPairs" then .l (generateODPairs value)
  else .s value

/-- Folds the configured normalization functions over a scalar value.  Once
a function has produced a list, applying a further string normalization
would raise `AttributeError` in Python; that is the error case. -/
def normFold : List String → NormSt → Except String NormSt
  | [], st => pure st
  | f :: rest, .s v => normFold rest (applySingleNormalization v f)
  | _ :: _, .l _ => throw "AttributeError: normalization applied to a list"

mutual

/-- Model of `FieldMapper._apply_normalization`: lists are normalized
element-wise, scalars are string-converted and passed through the
configured functions in order. -/
def applyNormalization : List String → PyVal → Except String PyVal
  | funcs, .list items => do
    pure (.list (← applyNormalizationList funcs items))
  | funcs, v => do
    let s0 := match v with
      | .str s => s
      | v => pyValToStr v
    match ← normFold funcs (.s s0) with
    | .s r => pure (.str r)
    | .l rs => pure (.list (rs.map .str))

/-- Element-wise normalization of a list value. -/
def applyNormalizationList : List String → List PyVal → Except String (List PyVal)
  | _, [] => pure []
  | funcs, v :: rest => do
    pure ((← applyNormalization funcs v) :: (← applyNormalizationList funcs rest))

end

/-- Normalizes each collected value and flattens list results into the
accumulator, as the `extend`/`append` loop in `get_field_value` does. -/
def normalizeCollect (funcs : List String) : List PyVal → Except String (List PyVal)
  | [] => pure []
  | v :: rest => do
    let norm ← applyNormalization funcs v
    let tail ← normalizeCollect funcs rest
    match norm with
    | .list l => pure (l ++ tail)
    | norm => pure (norm :: tail)

/-- Model of `FieldMapper._get_composite_value` with the default hyphen
join (`compositeFormat` is not modelled; none of the claims exercise it).
A missing or empty component makes the whole composite `None`. -/
def compositeParts (c : CouponData) : List String → Option (List String)
  | [] => Option.some []
  | p :: rest =>
    match getValueFromPath c p with
    | Option.some v =>
      if v = .none ∨ v = .str "" then Option.none
      else (compositeParts c rest).map (pyValToStr v :: ·)
    | Option.none => Option.none

/-- Model of `FieldMapper._resolve_path_value`. -/
def resolvePathValue (c : CouponData) : PathSpec → Option PyVal
  | .simple p => getValueFromPath c p
  | .composite ps =>
    (compositeParts c ps).map (fun vs => .str (String.intercalate "-" vs))

/-- Model of `FieldMapper.get_field_value`: collect the primary value, the
alternative-path values (scalars there are appended string-converted), then
the fallback; normalize everything; return a scalar when exactly one value
remains and the mapping does not force a list. -/
def getFieldValue (fm : FieldMapper) (c : CouponData) (ruleField : String) :
    Except String (Option PyVal) :=
  match getMapping fm ruleField with
  | Option.none => pure Option.none
  | Option.some m => do
    let collected0 : List PyVal :=
      match resolvePathValue c m.inputPath with
      | Option.some v =>
        if v ≠ .none ∧ v ≠ .str "" then
          match v with
          | .list l => l
          | v => [v]
        else []
      | Option.none => []
    let altVals : List PyVal :=
      if m.alternativePaths ≠ [] ∧ m.enableAlternativePaths then
        m.alternativePaths.foldl (fun acc ap =>
          match resolvePathValue c ap with
          | Option.some v =>
            if v ≠ .none ∧ v ≠ .str "" then
              match v with
              | .list l => acc ++ l
              | v => acc ++ [.str (pyValToStr v)]
            else acc
          | Option.none => acc) []
      else []
    let collected1 := collected0 ++ altVals
    let collected2 :=
      if collected1 = [] then
        match m.fallbackPath with
        | Option.some fp =>
          match getValueFromPath c fp with
          | Option.some v => if v ≠ .none ∧ v ≠ .str "" then [v] else []
          | Option.none => []
        | Option.none => []
      else collected1
    if collected2 = [] then pure Option.none
    else do
      let normalized ← normalizeCollect m.normalize collected2
      match normalized with
      | [v] => if m.forceList then pure (Option.some (.list [v])) else pure (Option.some v)
      | vs => pure (Option.some (.list vs))

/-- Model of `FieldMapper.normalize_rule_values`. -/
def normalizeRuleValues (fm : FieldMapper) (ruleField : String)
    (values : List PyVal) : Except String (List PyVal) :=
  match getMapping fm ruleField with
  | Option.none => pure values
  | Option.some m =>
    if m.normalize = [] then pure values
    else normalizeCollect m.normalize values

/-- Model of `FieldMapper.normalize_to_list`. -/
def normalizeToList : PyVal → List PyVal
  | .none => []
  | .list l => l
  | v => [v]

/-- Model of `FieldMapper.check_null_value`: `(Option.some pass, reason)`
when the value is null-like and the configured handling decides, otherwise
`(Option.none, Option.none)` to continue. -/
def checkNullValue (v : PyVal) (nullHandling fieldName : String) :
    Option Bool × Option String :=
  if v = .none ∨ v = .str "" ∨ v = .str "UNKNOWN" then
    if nullHandling = "skip_and_allow" then (Option.some true, Option.some "skipped")
    else (Option.some false, Option.some (fieldName ++ " is null or unknown"))
  else (Option.none, Option.none)

/-- Model of `FieldMapper.check_array_match`. -/
def checkArrayMatch (inputV : PyVal) (ruleList : List PyVal) (matchMode : String) : Bool :=
  let il := normalizeToList inputV
  if il = [] then true
  else if ruleList = [] then true
  else if matchMode = "any" then il.any (fun iv => ruleList.contains iv)
  else if matchMode = "all" then il.all (fun iv => ruleList.contains iv)
  else if matchMode = "none" then !(il.any (fun iv => ruleList.contains iv))
  else false

/-- Tokens of a formula expression string, as `FormulaParser` sees it
after `parse_formula`.  Encoding convention, mirroring the regexes of
`parse_formula`: a maximal word run that is entirely `[A-Z0-9_]` starting
with `[A-Z_]`, or entirely `[a-z0-9_]` starting with `[a-z_]`, and is not
in the operator set `{AND, OR, NOT, IF, THEN, ELSE, MIN, MAX, SUM, AVG}`,
is a `param`; a lowercase name directly followed by a parenthesized
argument is one `fncall` atom (the regex `\\b([a-z_][a-z0-9_]*)\\([^)]+\\)`);
any other word run is an `ident`; `bad` stands for character data that
Python rejects at `ast.parse` time. -/
inductive FTok where
  | num (q : ℚ)
  | param (p : String)
  | ident (s : String)
  | fncall (fname arg : String)
  | op (o : String)
  | lparen
  | rparen
  | comma
  | bad
deriving DecidableEq

/-- A criteria dictionary of a contract: the `IN` and `OUT` maps from
contract field names to lists of rule values (`inC` is JSON key `IN`,
`outC` is JSON key `OUT`). -/
structure CriteriaSet where
  inC : List (String × List PyVal) := []
  outC : List (String × List PyVal) := []
deriving DecidableEq

/-- Looks up a field in a criteria dictionary (`dict.get(field, [])`). -/
def criteriaLookup (entries : List (String × List PyVal)) (field : String) : List PyVal :=
  match entries.find? (fun e => e.1 = field) with
  | Option.some e => e.2
  | Option.none => []

/-- One tier row after the loader has read either the old
(`target_min`/`target_max`, `payout_value`/`payout_unit`) or the new
(`target.min`/`target.max`, `payout.value`/`payout.unit`) JSON shape;
an absent `max` (`float("inf")` in the source) is `Option.none`.  Defaults
follow the `.get(...)` defaults of `_find_applicable_tier` and
`_calculate_tier_payout`. -/
structure TierRow where
  targetMin : ℚ := 0
  targetMax : Option ℚ := Option.none
  payoutValue : ℚ := 0
  payoutUnit : String := "PERCENT"
deriving DecidableEq

/-- One tier table (`{table_label, rows}`). -/
structure Tier where
  table_label : String := ""
  rows : List TierRow := []
deriving DecidableEq

/-- One mapping inside an addon rule case; empty strings model absent
values (`mapping.get(..., "")`), and the effective dates stay as raw
strings since `_coupon_matches_mapping` parses them on the fly. -/
structure AddonMapping where
  marketing_flight : String := ""
  operating_airline : String := ""
  route : String := ""
  effective_from : Option String := Option.none
  effective_to : Option String := Option.none
deriving DecidableEq

/-- One addon rule case (`addon_rule_cases` entry). -/
structure AddonRule where
  addon_rule_id : String := "Unknown"
  name : String := "Unknown Addon Rule"
  when_to_apply : String := ""
  override_logic : String := ""
  mappings : List AddonMapping := []
  exclusions_still_applicable : List String := []
deriving DecidableEq

/-- Model of `models.ContractData`.

Two modelling notes:
* `airline_codes` is not declared in the pydantic model in `models.py`
  although the loaders pass it to the constructor, so pydantic silently
  drops it and every `getattr(contract, "airline_codes", [])` in the
  engine yields `[]` at runtime with the current loaders.  The field is
  kept here so that both the declared-field and the runtime (`[]`)
  behaviour are expressible; the `[]` case is the one the loaders realize.
* `trigger_formula_repr` / `payout_formula_repr` carry the token form of
  the corresponding formula string, i.e. the structure
  `FormulaParser.parse_formula` derives from it with regexes; the raw
  string is kept alongside for the `_is_mathematical_formula` checks. -/
structure ContractData where
  document_name : String := ""
  document_id : String := ""
  contract_name : String := ""
  contract_id : String := ""
  rule_id : String := ""
  ruleset_id : Option String := Option.none
  source_name : Option String := Option.none
  start_date : ℤ
  end_date : ℤ
  trigger_type : String := "FLOWN"
  trigger_components : List String := ["BASE"]
  trigger_formula : Option String := Option.none
  trigger_formula_repr : List FTok := []
  trigger_eligibility_criteria : CriteriaSet := {}
  payout_type : String := "PERCENTAGE"
  payout_components : List String := ["BASE"]
  payout_formula : Option String := Option.none
  payout_formula_repr : List FTok := []
  payout_percentage : Option ℚ := Option.none
  payout_eligibility_criteria : CriteriaSet := {}
  currency : String := "USD"
  tiers : List Tier := []
  creation_date : ℤ := 20250101
  update_date : ℤ := 20250101
  iata_codes : List String := []
  countries : List String := []
  airline_codes : List String := []
  addon_rule_cases : List AddonRule := []
deriving DecidableEq

/-- Model of `models.ContractAnalysis` (`contract_window_date` is split
into its `start`/`end` components). -/
structure ContractAnalysis where
  document_name : String
  document_id : String
  contract_name : String
  contract_id : String
  rule_id : String
  ruleset_id : Option String
  source_name : Option String
  currency : String
  window_start : ℤ
  window_end : ℤ
  trigger_formula : String
  trigger_value : ℚ
  payout_formula : String
  payout_value : ℚ
  sector_eligibility : Bool
  trigger_eligibility : Bool
  payout_eligibility : Bool
  sector_eligibility_reason : String
  trigger_eligibility_reason : String
  payout_eligibility_reason : String
  rule_creation_date : ℤ
  rule_update_date : ℤ
deriving DecidableEq

/-- The `contract_field_to_rule_field` table of `EligibilityCheckerV2`. -/
def contractFieldToRuleField : List (String × String) :=
  [("POS", "pos"),
   ("Route", "route"),
   ("Routes", "route"),
   ("O&D Area", "ond"),
   ("OnD", "ond"),
   ("City_Codes", "cityCode"),
   ("Marketing_Airline", "marketingAirline"),
   ("Marketing Airline", "marketingAirline"),
   ("Operating_Airline", "operatingAirline"),
   ("Operating Airline", "operatingAirline"),
   ("Ticketing_Airline", "ticketingAirline"),
   ("Ticketing Airline", "ticketingAirline"),
   ("Flight_Nos", "flightNumber"),
   ("RBD", "rbd"),
   ("Cabin", "cabin"),
   ("Fare_Type", "fareType"),
   ("Fare Type", "fareType"),
   ("Corporate_Code", "corporateCode"),
   ("Tour_Code", "tourCode"),
   ("NDC", "ndc"),
   ("Code_Share", "codeShare"),
   ("Interline", "interline"),
   ("DomIntl", "domIntl"),
   ("SITI_SOTO_SITO_SOTI", "sitiSotoSitoSoti"),
   ("SITI/SOTO/SITO/SOTI", "sitiSotoSitoSoti"),
   ("Alliance", "alliance"),
   ("Sales_Date", "salesDate"),
   ("Travel_Date", "travelDate"),
   ("IATA", "iataCode")]

/-- Model of `EligibilityCheckerV2._resolve_rule_field`. -/
def resolveRuleField (contractField : String) : String :=
  match contractFieldToRuleField.find? (fun e => e.1 = contractField) with
  | Option.some e => e.2
  | Option.none => contractField

/-- The explicit Unknown-wildcard test of `_check_criterion_logic`. -/
def isUnknownVal : PyVal → Bool
  | .str s => lowerStr (pyStrip s) = "unknown"
  | .list l => l.any (fun v =>
      match v with
      | .str s => lowerStr (pyStrip s) = "unknown"
      | _ => false)
  | _ => false

/-- Model of `EligibilityCheckerV2._check_list_value`. -/
def checkListValue (couponValue : PyVal) (inValues outValues : List PyVal)
    (fieldName matchMode : String) : Bool × Option String :=
  if outValues ≠ [] ∧ checkArrayMatch couponValue outValues "any" then
    (false, Option.some (fieldName ++ " value " ++ pyValToStr couponValue ++ " excluded"))
  else if inValues ≠ [] then
    let normalizedIn := normalizeToList (.list inValues)
    if normalizedIn.contains (PyVal.str "ALL") || normalizedIn.contains (PyVal.str "ANY") then
      (true, Option.none)
    else if !(checkArrayMatch couponValue inValues matchMode) then
      (false, Option.some (fieldName ++ " value " ++ pyValToStr couponValue ++ " not in eligible list"))
    else (true, Option.none)
  else (true, Option.none)

/-- Model of `EligibilityCheckerV2._check_boolean_value`: the rule values
arrive as lists here, so the list-unwrap branches of the source collapse
to a head inspection. -/
def checkBooleanValue (couponValue : PyVal) (inValues outValues : List PyVal)
    (fieldName : String) : Bool × Option String :=
  let cBool := toBoolConv couponValue
  let inFail : Option String :=
    match inValues with
    | x :: _ =>
      if x ≠ .none ∧ cBool ≠ toBoolConv x then
        Option.some (fieldName ++ " " ++ pyValToStr (.bool cBool) ++ " != " ++
          pyValToStr (.bool (toBoolConv x)))
      else Option.none
    | [] => Option.none
  match inFail with
  | Option.some r => (false, Option.some r)
  | Option.none =>
    match outValues with
    | x :: _ =>
      if x ≠ .none ∧ cBool = toBoolConv x then
        (false, Option.some (fieldName ++ " " ++ pyValToStr (.bool cBool) ++ " is excluded"))
      else (true, Option.none)
    | [] => (true, Option.none)

/-- Looks up a key in a range dictionary (`rng.get(key)`). -/
def dictGet (entries : List (String × String)) (k : String) : Option String :=
  (entries.find? (fun e => e.1 = k)).map (fun e => e.2)

/-- The range loop of `_check_date_range`: does the coupon date fit in any
declared range?  A malformed date string raises (`strptime`), which the
sector check converts into an `EligibilityError`. -/
def rangesAny (cd : ℤ) : List (List (String × String)) → Except String Bool
  | [] => pure false
  | rng :: rest => do
    let validStart ←
      match dictGet rng "start" with
      | Option.some st =>
        if st ≠ "" then
          match parseDateYMD st with
          | Option.some dt => pure (decide (¬ cd < dt))
          | Option.none => throw ("time data does not match format Y-m-d: " ++ st)
        else pure true
      | Option.none => pure true
    let validEnd ←
      match dictGet rng "end" with
      | Option.some en =>
        if en ≠ "" then
          match parseDateYMD en with
          | Option.some dt => pure (decide (¬ cd > dt))
          | Option.none => throw ("time data does not match format Y-m-d: " ++ en)
        else pure true
      | Option.none => pure true
    if validStart && validEnd then pure true else rangesAny cd rest

/-- Model of `EligibilityCheckerV2._check_date_range` (the `out_values`
argument is unused in the source as well; comparing a non-date coupon
value with a parsed date raises `TypeError` in Python). -/
def checkDateRange (couponValue : PyVal) (inValues : List PyVal)
    (_outValues : List PyVal) (fieldName : String) :
    Except String (Bool × Option String) :=
  match couponValue with
  | .date cd =>
    let ranges := inValues.filterMap (fun v =>
      match v with
      | .dict d => Option.some d
      | _ => Option.none)
    if ranges.isEmpty then pure (true, Option.none)
    else do
      let inAny ← rangesAny cd ranges
      if inAny then pure (true, Option.none)
      else pure (false, Option.some
        (fieldName ++ " " ++ formatDateInt cd ++ " not in specified date ranges"))
  | _ => throw "TypeError: date criteria compared with non-date value"

/-- Model of `EligibilityCheckerV2._check_criterion_logic`. -/
def checkCriterionLogic (fm : FieldMapper) (coupon : CouponData)
    (ruleField logField : String) (inValues outValues : List PyVal) :
    Except String (Bool × Option String) :=
  match getMapping fm ruleField with
  | Option.none => pure (true, Option.none)
  | Option.some mapping =>
    if mapping.ignoreCriteria then pure (true, Option.none)
    else do
      let inVals ← if inValues ≠ [] then normalizeRuleValues fm ruleField inValues
                   else pure inValues
      let outVals ← if outValues ≠ [] then normalizeRuleValues fm ruleField outValues
                    else pure outValues
      let couponValueOpt ← getFieldValue fm coupon ruleField
      let couponValue := couponValueOpt.getD PyVal.none
      if isUnknownVal couponValue then pure (true, Option.none)
      else
        match checkNullValue couponValue mapping.nullHandling logField with
        | (Option.some res, reason) =>
          pure (res, if res then Option.none else reason)
        | (Option.none, _) =>
          if mapping.dataType = "boolean" then
            pure (checkBooleanValue couponValue inVals outVals logField)
          else if mapping.dataType = "date" then
            checkDateRange couponValue inVals outVals logField
          else
            pure (checkListValue couponValue inVals outVals logField mapping.matchMode)

/-- Model of `EligibilityCheckerV2._check_criterion`. -/
def checkCriterion (fm : FieldMapper) (coupon : CouponData)
    (contractField : String) (inValues outValues : List PyVal) :
    Except String (Bool × Option String) :=
  checkCriterionLogic fm coupon (resolveRuleField contractField) contractField
    inValues outValues

/-- Model of `EligibilityCheckerV2._check_criterion_explicit`. -/
def checkCriterionExplicit (fm : FieldMapper) (coupon : CouponData)
    (ruleField : String) (inValues outValues : List PyVal) :
    Except String (Bool × Option String) :=
  match getMapping fm ruleField with
  | Option.none => pure (true, Option.none)
  | Option.some _ =>
    checkCriterionLogic fm coupon ruleField ruleField inValues outValues

/-- Model of `EligibilityCheckerV2._check_contract_window`: the relevant
date is the flown date for FLOWN trigger contracts, else the sales date;
outside `[start_date, end_date]` fails with a reason. -/
def checkContractWindow (coupon : CouponData) (contract : ContractData) :
    Bool × String :=
  let couponDate :=
    if contract.trigger_type = "FLOWN" then coupon.cpn_flown_date
    else coupon.cpn_sales_date
  if couponDate < contract.start_date ∨ couponDate > contract.end_date then
    (false, "Date not in contract window: " ++ formatDateInt couponDate ++
      " outside " ++ formatDateInt contract.start_date ++ " to " ++
      formatDateInt contract.end_date)
  else (true, "")

/-- True when the rule field belongs to `sector_criteria_groups`
(`{geographic, booking, airline_flight}`). -/
def isSectorGroup (g : Option String) : Bool :=
  g = Option.some "geographic" || g = Option.some "booking" ||
  g = Option.some "airline_flight"

/-- The `check_criteria_dict` helper of `check_sector_eligibility`: walks
one criteria dictionary, evaluating only sector-group fields, collecting
the failure reasons in order. -/
def checkSectorCriteriaDict (fm : FieldMapper) (coupon : CouponData)
    (isExclusion : Bool) :
    List (String × List PyVal) → Except String (List String)
  | [] => pure []
  | (cf, rules) :: rest => do
    let ruleField := resolveRuleField cf
    let group := getCriteriaGroup fm ruleField
    let here ←
      if isSectorGroup group then do
        let inVals := if isExclusion then [] else rules
        let outVals := if isExclusion then rules else []
        let (passed, reason) ← checkCriterion fm coupon cf inVals outVals
        pure (if passed then [] else [reason.getD ""])
      else pure []
    let restRs ← checkSectorCriteriaDict fm coupon isExclusion rest
    pure (here ++ restRs)

/-- Steps 1-3 of `check_sector_eligibility`: contract window, explicit
IATA check, then both criteria dictionaries filtered to sector groups. -/
def checkSectorRest (fm : FieldMapper) (coupon : CouponData)
    (contract : ContractData) : Except String (Bool × List String) :=
  match (if contract.iata_codes ≠ [] then
      match checkCriterionExplicit fm coupon "iataCode"
        (contract.iata_codes.map PyVal.str) [] with
      | .error e => .error e
      | .ok (iataPassed, iataReason) =>
        .ok (if iataPassed then [] else [iataReason.getD ""])
    else (.ok ([] : List String) : Except String (List String))) with
  | .error e => .error e
  | .ok rs1 =>
    match checkSectorCriteriaDict fm coupon false
      contract.trigger_eligibility_criteria.inC with
    | .error e => .error e
    | .ok rs2 =>
      match checkSectorCriteriaDict fm coupon true
        contract.trigger_eligibility_criteria.outC with
      | .error e => .error e
      | .ok rs3 =>
        .ok ((((if (checkContractWindow coupon contract).1 then []
              else [(checkContractWindow coupon contract).2]) ++
            rs1 ++ rs2 ++ rs3)).isEmpty,
          (if (checkContractWindow coupon contract).1 then []
            else [(checkContractWindow coupon contract).2]) ++ rs1 ++ rs2 ++ rs3)

/-- The body of `check_sector_eligibility`, before the `except` wrapper. -/
def checkSectorBody (fm : FieldMapper) (coupon : CouponData)
    (contract : ContractData) : Except String (Bool × List String) :=
  if contract.airline_codes ≠ [] then
    if !((((contract.airline_codes.filter (fun c => c ≠ "")).map
        (fun c => upperStr (pyStrip c))).contains
          (upperStr (pyStrip coupon.cpn_airline_code)))) then
      .ok (false, ["Sector airline mismatch: coupon sector airline " ++
        upperStr (pyStrip coupon.cpn_airline_code) ++
        " does not match contract airline codes"])
    else checkSectorRest fm coupon contract
  else checkSectorRest fm coupon contract

/-- Model of `EligibilityCheckerV2.check_sector_eligibility`; an internal
exception is re-raised as an `EligibilityError` with this message. -/
def checkSectorEligibility (fm : FieldMapper) (coupon : CouponData)
    (contract : ContractData) : Except String (Bool × List String) :=
  match checkSectorBody fm coupon contract with
  | .ok r => .ok r
  | .error e => .error ("Sector eligibility check failed: " ++ e)

/-- The `check_remaining_criteria` helper of `check_trigger_eligibility`:
sector-group fields are skipped, everything else is evaluated. -/
def checkRemainingDict (fm : FieldMapper) (coupon : CouponData)
    (isExclusion : Bool) :
    List (String × List PyVal) → Except String (Bool × List String)
  | [] => pure (true, [])
  | (cf, rules) :: rest => do
    let ruleField := resolveRuleField cf
    let group := getCriteriaGroup fm ruleField
    if isSectorGroup group then checkRemainingDict fm coupon isExclusion rest
    else do
      let inVals := if isExclusion then [] else rules
      let outVals := if isExclusion then rules else []
      let (passed, reason) ← checkCriterion fm coupon cf inVals outVals
      let (restP, restRs) ← checkRemainingDict fm coupon isExclusion rest
      pure (passed && restP, (if passed then [] else [reason.getD ""]) ++ restRs)

/-- Model of `EligibilityCheckerV2.check_trigger_eligibility`. -/
def checkTriggerEligibility (fm : FieldMapper) (coupon : CouponData)
    (contract : ContractData) (sectorEligible : Bool) :
    Except String (Bool × List String) :=
  let body : Except String (Bool × List String) :=
    if !sectorEligible then pure (false, ["Sector not eligible - trigger skipped"])
    else do
      let (passedIn, reasonsIn) ← checkRemainingDict fm coupon false
        contract.trigger_eligibility_criteria.inC
      let (passedOut, reasonsOut) ← checkRemainingDict fm coupon true
        contract.trigger_eligibility_criteria.outC
      let allPassed := passedIn && passedOut
      let reasons := if allPassed then ["All trigger criteria met"]
        else reasonsIn ++ reasonsOut
      pure (allPassed, reasons)
  match body with
  | .ok r => .ok r
  | .error e => .error ("Trigger eligibility check failed: " ++ e)

/-- The `check_all_criteria` helper of `check_payout_eligibility`: every
field of the dictionary is evaluated, with no group filter. -/
def checkAllCriteriaDict (fm : FieldMapper) (coupon : CouponData)
    (isExclusion : Bool) :
    List (String × List PyVal) → Except String (Bool × List String)
  | [] => pure (true, [])
  | (cf, rules) :: rest => do
    let inVals := if isExclusion then [] else rules
    let outVals := if isExclusion then rules else []
    let (passed, reason) ← checkCriterion fm coupon cf inVals outVals
    let (restP, restRs) ← checkAllCriteriaDict fm coupon isExclusion rest
    pure (passed && restP, (if passed then [] else [reason.getD ""]) ++ restRs)

/-- Model of `EligibilityCheckerV2.check_payout_eligibility`: uses the
payout criteria when any are configured, else falls back to the trigger
criteria, and evaluates all fields of the selected dictionary. -/
def checkPayoutEligibility (fm : FieldMapper) (coupon : CouponData)
    (contract : ContractData) (sectorEligible : Bool) :
    Except String (Bool × List String) :=
  let body : Except String (Bool × List String) :=
    if !sectorEligible then pure (false, ["Sector not eligible - payout skipped"])
    else
      let pc := contract.payout_eligibility_criteria
      let source :=
        if pc.inC = [] ∧ pc.outC = [] then contract.trigger_eligibility_criteria
        else pc
      do
        let (passedIn, reasonsIn) ← checkAllCriteriaDict fm coupon false source.inC
        let (passedOut, reasonsOut) ← checkAllCriteriaDict fm coupon true source.outC
        let allPassed := passedIn && passedOut
        let reasons := if allPassed then ["All payout criteria met"]
          else reasonsIn ++ reasonsOut
        pure (allPassed, reasons)
  match body with
  | .ok r => .ok r
  | .error e => .error ("Payout eligibility check failed: " ++ e)

/-- Model of `ComputationEngine._calculate_considered_revenue` (the
formula module carries an identical private copy): the token `NONE` means
"use total revenue", otherwise the named components are summed, an
occurrence at a time. -/
def calculateConsideredRevenue (coupon : CouponData) (components : List String) : ℚ :=
  if components.contains "NONE" then coupon.cpn_total_revenue
  else components.foldl (fun acc comp =>
    if comp = "BASE" then acc + coupon.cpn_revenue_base
    else if comp = "YQ" then acc + coupon.cpn_revenue_yq
    else if comp = "YR" then acc + coupon.cpn_revenue_yr
    else if comp = "XT" then acc + coupon.cpn_revenue_xt
    else acc) 0

/-- Does the revenue fall in the inclusive `[min, max]` bracket of a tier
row (`min_value <= revenue <= max_value`, an absent max being infinity)? -/
def tierRowMatches (r : ℚ) (row : TierRow) : Bool :=
  decide (row.targetMin ≤ r) &&
  (match row.targetMax with
   | Option.some m => decide (r ≤ m)
   | Option.none => true)

/-- The percentage a tier row contributes in
`FormulaParser._extract_tier_percentage`: `value / 100` for PERCENT rows,
`Decimal(0)` otherwise. -/
def tierRowPercent (row : TierRow) : ℚ :=
  if row.payoutUnit = "PERCENT" then row.payoutValue / 100 else 0

/-- Model of `FormulaParser._extract_tier_percentage`: a small-revenue
shortcut to the first populated tier, then a bracket search, then the
first populated tier as a default. -/
def extractTierPercentage (coupon : CouponData) (contract : ContractData) : Option ℚ :=
  if contract.tiers = [] then Option.none
  else
    let r := calculateConsideredRevenue coupon contract.payout_components
    let firstPopulated : Option ℚ :=
      match contract.tiers.find? (fun t => !t.rows.isEmpty) with
      | Option.some t =>
        match t.rows with
        | row :: _ => Option.some (tierRowPercent row)
        | [] => Option.none
      | Option.none => Option.none
    if r < 1000 ∧ firstPopulated.isSome then firstPopulated
    else
      match (contract.tiers.flatMap (fun t => t.rows)).find? (tierRowMatches r) with
      | Option.some row => Option.some (tierRowPercent row)
      | Option.none => firstPopulated

/-- A value in the formula evaluation context: a Decimal/int, or one of
the builtin function objects (`min`, `max`, ...) the context also holds. -/
inductive CtxVal where
  | numv (q : ℚ)
  | funcv
deriving DecidableEq

/-- Insert-or-overwrite into the context, Python dict assignment. -/
def ctxSet (ctx : List (String × CtxVal)) (k : String) (v : CtxVal) :
    List (String × CtxVal) :=
  if ctx.any (fun e => e.1 = k) then
    ctx.map (fun e => if e.1 = k then (k, v) else e)
  else ctx ++ [(k, v)]

/-- Context lookup (`context[param]` after `param in context`). -/
def ctxLookup (ctx : List (String × CtxVal)) (k : String) : Option CtxVal :=
  (ctx.find? (fun e => e.1 = k)).map (fun e => e.2)

/-- Model of `FormulaParser._create_evaluation_context`: coupon revenue
components, then contract parameters (`slab_percent`/`tier_percent` from
`payout_percentage`; `cap_value`/`blp_value` are skipped because the
pydantic contract model has no such attributes), a tier-derived percentage
override, defaults for `amount_in_slab_on` and `band_percent`, the caller
extras, and finally the builtin function objects. -/
def createEvaluationContext (coupon : CouponData) (contract : ContractData)
    (additional : List (String × CtxVal)) : List (String × CtxVal) :=
  let c0 : List (String × CtxVal) :=
    [("BASE", .numv coupon.cpn_revenue_base),
     ("YQ", .numv coupon.cpn_revenue_yq),
     ("YR", .numv coupon.cpn_revenue_yr),
     ("XT", .numv coupon.cpn_revenue_xt),
     ("TOTAL", .numv coupon.cpn_total_revenue)]
  let c1 := match contract.payout_percentage with
    | Option.some p => ctxSet (ctxSet c0 "slab_percent" (.numv p)) "tier_percent" (.numv p)
    | Option.none => c0
  let c2 :=
    if contract.tiers ≠ [] then
      match extractTierPercentage coupon contract with
      | Option.some tp =>
        ctxSet (ctxSet c1 "slab_percent" (.numv tp)) "tier_percent" (.numv tp)
      | Option.none => c1
    else c1
  let c3 := ctxSet (ctxSet c2 "amount_in_slab_on" (.numv 0)) "band_percent" (.numv 0)
  let c4 := additional.foldl (fun acc kv => ctxSet acc kv.1 kv.2) c3
  ["min", "max", "sum", "abs", "round"].foldl (fun acc k => ctxSet acc k .funcv) c4

/-- The textual substitutions of `evaluate_formula` on one token: an
`amount_in_slab_on(ARG)` call becomes the value of `ARG` (or `0` when the
argument is missing from the context), any other captured call is replaced
by `0`, and a parameter becomes its context value or `0` when missing.
Splicing `str(<built-in function>)` into the text produces something the
parser rejects, hence `bad`. -/
def substTok (ctx : List (String × CtxVal)) : FTok → FTok
  | .param p =>
    match ctxLookup ctx p with
    | Option.some (.numv q) => .num q
    | Option.some .funcv => .bad
    | Option.none => .num 0
  | .fncall f a =>
    if f = "amount_in_slab_on" then
      match ctxLookup ctx a with
      | Option.some (.numv q) => .num q
      | Option.some .funcv => .bad
      | Option.none => .num 0
    else .num 0
  | t => t

/-- Binary operators of the supported Python expression grammar. -/
inductive BOp where
  | add
  | sub
  | mul
  | div
  | mod
  | bxor
deriving DecidableEq

/-- The abstract syntax `ast.parse(expression, mode="eval")` produces for
the expressions this pipeline can build. -/
inductive Ast where
  | num (q : ℚ)
  | name (s : String)
  | bin (o : BOp) (a b : Ast)
  | un (neg : Bool) (a : Ast)
  | call (f : String) (args : List Ast)

mutual

/-- Expression level: `^` (BitXor — the source first rewrites `**` to `^`),
which binds loosest. -/
def pExpr : Nat → List FTok → Except String (Ast × List FTok)
  | 0, _ => throw "SyntaxError"
  | n + 1, ts => do
    let (a, ts1) ← pAdd n ts
    pExprRest n a ts1

/-- Left-associated continuation of the `^` level. -/
def pExprRest : Nat → Ast → List FTok → Except String (Ast × List FTok)
  | 0, _, _ => throw "SyntaxError"
  | n + 1, a, ts =>
    match ts with
    | .op "^" :: rest => do
      let (b, ts2) ← pAdd n rest
      pExprRest n (.bin .bxor a b) ts2
    | _ => pure (a, ts)

/-- Additive level. -/
def pAdd : Nat → List FTok → Except String (Ast × List FTok)
  | 0, _ => throw "SyntaxError"
  | n + 1, ts => do
    let (a, ts1) ← pMul n ts
    pAddRest n a ts1

/-- Left-associated continuation of the additive level. -/
def pAddRest : Nat → Ast → List FTok → Except String (Ast × List FTok)
  | 0, _, _ => throw "SyntaxError"
  | n + 1, a, ts =>
    match ts with
    | .op "+" :: rest => do
      let (b, ts2) ← pMul n rest
      pAddRest n (.bin .add a b) ts2
    | .op "-" :: rest => do
      let (b, ts2) ← pMul n rest
      pAddRest n (.bin .sub a b) ts2
    | _ => pure (a, ts)

/-- Multiplicative level. -/
def pMul : Nat → List FTok → Except String (Ast × List FTok)
  | 0, _ => throw "SyntaxError"
  | n + 1, ts => do
    let (a, ts1) ← pUnary n ts
    pMulRest n a ts1

/-- Left-associated continuation of the multiplicative level. -/
def pMulRest : Nat → Ast → List FTok → Except String (Ast × List FTok)
  | 0, _, _ => throw "SyntaxError"
  | n + 1, a, ts =>
    match ts with
    | .op "*" :: rest => do
      let (b, ts2) ← pUnary n rest
      pMulRest n (.bin .mul a b) ts2
    | .op "/" :: rest => do
      let (b, ts2) ← pUnary n rest
      pMulRest n (.bin .div a b) ts2
    | .op "%" :: rest => do
      let (b, ts2) ← pUnary n rest
      pMulRest n (.bin .mod a b) ts2
    | _ => pure (a, ts)

/-- Unary plus and minus. -/
def pUnary : Nat → List FTok → Except String (Ast × List FTok)
  | 0, _ => throw "SyntaxError"
  | n + 1, ts =>
    match ts with
    | .op "+" :: rest => do
      let (a, ts2) ← pUnary n rest
      pure (.un false a, ts2)
    | .op "-" :: rest => do
      let (a, ts2) ← pUnary n rest
      pure (.un true a, ts2)
    | _ => pAtom n ts

/-- Atoms: literals, names, calls, parenthesized expressions.  A leftover
`param`/`fncall` token is textually an identifier or a call, and a `bad`
token is a parse error. -/
def pAtom : Nat → List FTok → Except String (Ast × List FTok)
  | 0, _ => throw "SyntaxError"
  | n + 1, ts =>
    match ts with
    | .num q :: rest => pure (.num q, rest)
    | .ident f :: .lparen :: rest => do
      let (args, ts2) ← pArgs n rest
      pure (.call f args, ts2)
    | .ident s :: rest => pure (.name s, rest)
    | .param s :: rest => pure (.name s, rest)
    | .fncall f a :: rest => pure (.call f [.name a], rest)
    | .lparen :: rest => do
      let (a, ts2) ← pExpr n rest
      match ts2 with
      | .rparen :: ts3 => pure (a, ts3)
      | _ => throw "SyntaxError"
    | _ => throw "SyntaxError"

/-- Call arguments: at least one expression, comma-separated, closed by a
right parenthesis. -/
def pArgs : Nat → List FTok → Except String (List Ast × List FTok)
  | 0, _ => throw "SyntaxError"
  | n + 1, ts => do
    let (a, ts1) ← pExpr n ts
    pArgsRest n [a] ts1

/-- Continuation of the call-argument list. -/
def pArgsRest : Nat → List Ast → List FTok → Except String (List Ast × List FTok)
  | 0, _, _ => throw "SyntaxError"
  | n + 1, acc, ts =>
    match ts with
    | .comma :: rest => do
      let (a, ts1) ← pExpr n rest
      pArgsRest n (acc ++ [a]) ts1
    | .rparen :: rest => pure (acc, rest)
    | _ => throw "SyntaxError"

end

/-- Model of `ast.parse(expression, mode="eval")` on the token stream: the
whole stream must be one expression. -/
def parseToks (ts : List FTok) : Except String Ast :=
  match ts with
  | [] => throw "SyntaxError"
  | _ => do
    let (a, rest) ← pExpr (8 * (ts.length + 1)) ts
    if rest.isEmpty then pure a else throw "SyntaxError"

/-- Exception classes `_safe_evaluate` distinguishes: `ValueError` (and
`SyntaxError`) trigger the fallback `eval`, everything else skips it. -/
inductive EvalErr where
  | valueErr
  | otherErr
deriving DecidableEq

/-- Truncation toward zero, Python `int(x)` on a number. -/
def qTruncInt (q : ℚ) : ℤ :=
  if 0 ≤ q then Int.floor q else -(Int.floor (-q))

/-- Round half to even at integer precision, Python `round`. -/
def roundHalfEven (x : ℚ) : ℤ :=
  let f := Int.floor x
  let r := x - f
  if r < 1/2 then f else if 1/2 < r then f + 1 else if f % 2 = 0 then f else f + 1

/-- Python `round(x, n)`. -/
def pyRound (x : ℚ) (n : ℤ) : ℚ :=
  (roundHalfEven (x * (10 : ℚ) ^ n) : ℚ) / (10 : ℚ) ^ n

mutual

/-- Model of `FormulaParser._evaluate_ast`: the supported node set; a
`name`, an unhandled operator (BitXor) or an unhandled call raises
`ValueError` (the final `raise` of the source), a zero divisor raises
`ZeroDivisionError` (`otherErr`), `abs`/`round` on no arguments raise
`IndexError` (`otherErr`), `min`/`max` of an empty list raise
`ValueError`. -/
def evalAst : Ast → Except EvalErr ℚ
  | .num q => pure q
  | .name _ => throw .valueErr
  | .bin o a b => do
    let x ← evalAst a
    let y ← evalAst b
    match o with
    | .add => pure (x + y)
    | .sub => pure (x - y)
    | .mul => pure (x * y)
    | .div => if y = 0 then throw .otherErr else pure (x / y)
    | .mod => if y = 0 then throw .otherErr else pure (x - y * (Int.floor (x / y) : ℚ))
    | .bxor => throw .valueErr
  | .un neg a => do
    let x ← evalAst a
    pure (if neg then -x else x)
  | .call f args => do
    let vs ← evalAstList args
    if f = "min" then
      match vs with
      | [] => throw .valueErr
      | v :: rest => pure (rest.foldl min v)
    else if f = "max" then
      match vs with
      | [] => throw .valueErr
      | v :: rest => pure (rest.foldl max v)
    else if f = "sum" then pure (vs.foldl (fun acc v => acc + v) 0)
    else if f = "abs" then
      match vs with
      | [] => throw .otherErr
      | v :: _ => pure |v|
    else if f = "round" then
      match vs with
      | [] => throw .otherErr
      | [x] => pure (pyRound x 0)
      | x :: nd :: _ => pure (pyRound x (qTruncInt nd))
    else throw .valueErr

/-- Evaluates call arguments in order, propagating the first error. -/
def evalAstList : List Ast → Except EvalErr (List ℚ)
  | [] => pure []
  | a :: rest => do
    pure ((← evalAst a) :: (← evalAstList rest))

end

/-- A value of the fallback `eval`: a number or a builtin function
object. -/
inductive FVal where
  | fnum (q : ℚ)
  | ffunc (s : String)
deriving DecidableEq

mutual

/-- Model of the fallback `eval(expression, allowed_names)`: names resolve
only to the whitelisted builtins, arithmetic on a function object is a
`TypeError`, BitXor works on (here: nonnegative) integers, and the
builtins have their genuine Python calling conventions (in particular
`min`/`max` need two or more scalar arguments and `sum` of scalars is a
`TypeError`).  Any error here is caught by the outermost handler of
`_safe_evaluate`. -/
def evalFb : Ast → Except String FVal
  | .num q => pure (.fnum q)
  | .name s =>
    if s = "min" ∨ s = "max" ∨ s = "sum" ∨ s = "abs" ∨ s = "round" ∨ s = "pow" then
      pure (.ffunc s)
    else throw "NameError"
  | .bin o a b => do
    match (← evalFb a), (← evalFb b) with
    | .fnum x, .fnum y =>
      match o with
      | .add => pure (.fnum (x + y))
      | .sub => pure (.fnum (x - y))
      | .mul => pure (.fnum (x * y))
      | .div => if y = 0 then throw "ZeroDivisionError" else pure (.fnum (x / y))
      | .mod =>
        if y = 0 then throw "ZeroDivisionError"
        else pure (.fnum (x - y * (Int.floor (x / y) : ℚ)))
      | .bxor =>
        if x.den = 1 ∧ y.den = 1 ∧ 0 ≤ x.num ∧ 0 ≤ y.num then
          pure (.fnum ((Nat.xor x.num.toNat y.num.toNat : ℕ) : ℚ))
        else throw "TypeError"
    | _, _ => throw "TypeError"
  | .un neg a => do
    match ← evalFb a with
    | .fnum x => pure (.fnum (if neg then -x else x))
    | .ffunc _ => throw "TypeError"
  | .call f args =>
    if !(f = "min" ∨ f = "max" ∨ f = "sum" ∨ f = "abs" ∨ f = "round" ∨ f = "pow") then
      throw "NameError"
    else do
      let vs ← evalFbArgs args
      if f = "min" then
        match vs with
        | v1 :: v2 :: rest => pure (.fnum ((v2 :: rest).foldl min v1))
        | _ => throw "TypeError"
      else if f = "max" then
        match vs with
        | v1 :: v2 :: rest => pure (.fnum ((v2 :: rest).foldl max v1))
        | _ => throw "TypeError"
      else if f = "sum" then throw "TypeError"
      else if f = "abs" then
        match vs with
        | [x] => pure (.fnum |x|)
        | _ => throw "TypeError"
      else if f = "round" then
        match vs with
        | [x] => pure (.fnum (pyRound x 0))
        | [x, nd] => if nd.den = 1 then pure (.fnum (pyRound x nd.num)) else throw "TypeError"
        | _ => throw "TypeError"
      else
        match vs with
        | [x, e] =>
          if e.den = 1 then
            if x = 0 ∧ e.num < 0 then throw "ZeroDivisionError"
            else pure (.fnum (x ^ e.num))
          else throw "TypeError"
        | _ => throw "TypeError"

/-- Fallback evaluation of call arguments; a function-valued argument to
an arithmetic builtin is a `TypeError`. -/
def evalFbArgs : List Ast → Except String (List ℚ)
  | [] => pure []
  | a :: rest => do
    match ← evalFb a with
    | .fnum x => pure (x :: (← evalFbArgs rest))
    | .ffunc _ => throw "TypeError"

end

/-- The `expression.replace("**", "^")` preprocessing of
`_safe_evaluate`. -/
def prepToks (ts : List FTok) : List FTok :=
  ts.map (fun t => if t = FTok.op "**" then FTok.op "^" else t)

/-- Model of `FormulaParser._safe_evaluate`: rewrite `**` to `^`, parse,
evaluate; a `ValueError` falls back to the restricted `eval`, and every
remaining failure yields `0.0`. -/
def safeEvaluate (ts : List FTok) : ℚ :=
  match parseToks (prepToks ts) with
  | .error _ => 0
  | .ok ast =>
    match evalAst ast with
    | .ok v => v
    | .error .valueErr =>
      match evalFb ast with
      | .ok (.fnum v) => v
      | _ => 0
    | .error .otherErr => 0

/-- Model of `FormulaParser.evaluate_formula` given the token form of the
formula and an evaluation context: substitute, evaluate safely, quantize;
the enclosing catch-all returns `Decimal(0)`, but with the substitutions
already total no failure remains to catch (`parse_formula` never marks a
formula invalid — its own exception handler is unreachable). -/
def evaluateFormulaTokens (toks : List FTok) (ctx : List (String × CtxVal)) : ℚ :=
  quantize4 (safeEvaluate (toks.map (substTok ctx)))

/-- Model of `evaluate_formula(formula, coupon, contract, additional)` at
the call sites of the computation engine. -/
def evaluateFormulaFor (toks : List FTok) (coupon : CouponData)
    (contract : ContractData) (additional : List (String × CtxVal)) : ℚ :=
  evaluateFormulaTokens toks (createEvaluationContext coupon contract additional)

/-- Model of `ComputationEngine._is_mathematical_formula`: the formula
must contain a mathematical operator and a known parameter token and not
look like descriptive prose. -/
def isMathematicalFormula (formula : String) : Bool :=
  if formula = "" then false
  else
    let hasOperators :=
      ["=", "+", "-", "*", "/", "(", ")", "^", "**"].any
        (fun opStr => containsSub opStr formula)
    let hasParameters :=
      ["BASE", "YQ", "YR", "XT", "TOTAL", "slab_percent", "tier_percent"].any
        (fun tok => containsWordToken tok formula)
    let isDescriptive :=
      ["excluding", "including", "revenue", "flown", "commissions", "refunds",
       "taxes", "nrf", "ticketed", "operated", "on", "program", "incentive"].any
        (fun w => containsSub w (lowerStr formula))
    hasOperators && hasParameters && !isDescriptive

/-- Python truthiness of an optional formula string combined with the
mathematical-formula test (`contract.payout_formula and
self._is_mathematical_formula(...)`). -/
def formulaIsUsable (fo : Option String) : Bool :=
  match fo with
  | Option.some s => s ≠ "" && isMathematicalFormula s
  | Option.none => false

/-- Model of `ComputationEngine._apply_percentage_payout`: a missing or
zero (falsy) percentage yields `0`; otherwise the considered revenue is
multiplied by the stored percentage AS IS — the function performs no
division by 100. -/
def applyPercentagePayout (consideredRevenue : ℚ) (contract : ContractData) : ℚ :=
  match contract.payout_percentage with
  | Option.none => 0
  | Option.some p => if p = 0 then 0 else consideredRevenue * p

/-- Model of `ComputationEngine._apply_fixed_payout`: the pydantic model
declares no `payout_fixed_amount` attribute, so the `getattr` default
`Decimal(0)` always applies. -/
def applyFixedPayout (_consideredRevenue : ℚ) (_contract : ContractData) : ℚ := 0

/-- Inner row loop of `_find_applicable_tier`. -/
def findRowInRows (r : ℚ) : List TierRow → Option TierRow
  | [] => Option.none
  | row :: rest => if tierRowMatches r row then Option.some row else findRowInRows r rest

/-- Model of `ComputationEngine._find_applicable_tier`: first matching row
across all tiers, in declaration order. -/
def findApplicableTier (r : ℚ) : List Tier → Option TierRow
  | [] => Option.none
  | t :: rest =>
    match findRowInRows r t.rows with
    | Option.some row => Option.some row
    | Option.none => findApplicableTier r rest

/-- Model of `ComputationEngine._calculate_tier_payout`: PERCENT divides
the row value by 100 and multiplies the revenue, AMOUNT returns the value,
anything else defaults to the PERCENT behaviour. -/
def calculateTierPayout (r : ℚ) (row : TierRow) : ℚ :=
  if row.payoutUnit = "PERCENT" then r * (row.payoutValue / 100)
  else if row.payoutUnit = "AMOUNT" then row.payoutValue
  else r * (row.payoutValue / 100)

/-- Model of `ComputationEngine._apply_tiered_payout`: no tiers or no
matching row yields `0`. -/
def applyTieredPayout (r : ℚ) (tiers : List Tier) : ℚ :=
  if tiers = [] then 0
  else
    match findApplicableTier r tiers with
    | Option.none => 0
    | Option.some row => calculateTierPayout r row

/-- Model of `ComputationEngine._apply_trigger_formula` (identity on the
considered revenue). -/
def applyTriggerFormula (consideredRevenue : ℚ) (_contract : ContractData) : ℚ :=
  consideredRevenue

/-- Model of `ComputationEngine.compute_trigger`.  In this typed model the
body cannot raise, so the `ComputationError` re-raise branch is never
taken; the `Except` return type is kept for the orchestrator.  The
`trigger_capping` attribute does not exist on the pydantic model, so the
capping branch never runs. -/
def computeTrigger (coupon : CouponData) (contract : ContractData) : Except String ℚ :=
  let triggerValue :=
    if formulaIsUsable contract.trigger_formula then
      evaluateFormulaFor contract.trigger_formula_repr coupon contract []
    else
      applyTriggerFormula
        (calculateConsideredRevenue coupon contract.trigger_components) contract
  .ok (quantize4 triggerValue)

/-- Model of `ComputationEngine.compute_payout`: the formula path when a
mathematical payout formula is present, else the type dispatch
(PERCENTAGE / AMOUNT / everything else TIERED), then quantization to four
decimals, round half up.  As with the trigger, the `payout_capping`
attribute does not exist, so no capping applies, and the typed body cannot
raise. -/
def computePayout (coupon : CouponData) (contract : ContractData) : Except String ℚ :=
  let payoutValue :=
    if formulaIsUsable contract.payout_formula then
      evaluateFormulaFor contract.payout_formula_repr coupon contract []
    else
      let consideredRevenue := calculateConsideredRevenue coupon contract.payout_components
      if contract.payout_type = "PERCENTAGE" then
        applyPercentagePayout consideredRevenue contract
      else if contract.payout_type = "AMOUNT" then
        applyFixedPayout consideredRevenue contract
      else
        applyTieredPayout consideredRevenue contract.tiers
  .ok (quantize4 payoutValue)

/-- Model of `AddonRuleProcessor._should_apply_addon_rule`: substring
patterns of `when_to_apply` (lower-cased) combined with the current
eligibility; the default applies the rule whenever either flag is
false. -/
def shouldApplyAddonRule (coupon : CouponData) (rule : AddonRule)
    (currentTrigger currentPayout : Bool) : Bool :=
  let w := lowerStr rule.when_to_apply
  if containsSub "after base in/out filtering" w ∧ (!currentTrigger || !currentPayout) then true
  else if containsSub "only for coupons rejected" w ∧ (!currentTrigger || !currentPayout) then true
  else if (containsSub "operating carrier" w ∨ containsSub "codeshare" w) ∧
      (coupon.code_share ≠ "" ∨
       (coupon.operating_airline ≠ "" ∧ coupon.operating_airline ≠ coupon.marketing_airline)) then true
  else if containsSub "route/flight constraints" w then true
  else !currentTrigger || !currentPayout

/-- Model of `AddonRuleProcessor._coupon_matches_mapping`: marketing
flight (bare or airline-prefixed), operating airline, composed route, and
the effective date window (an unparseable date string only logs a warning
and skips that bound). -/
def couponMatchesMapping (coupon : CouponData) (m : AddonMapping) : Bool :=
  let couponFlight := coupon.flight_number
  let flightOK :=
    if m.marketing_flight ≠ "" then
      if m.marketing_flight = couponFlight then true
      else
        let combined :=
          if coupon.marketing_airline ≠ "" then coupon.marketing_airline ++ couponFlight
          else couponFlight
        m.marketing_flight = combined
    else true
  if !flightOK then false
  else if m.operating_airline ≠ "" ∧ m.operating_airline ≠ coupon.operating_airline then false
  else if m.route ≠ "" ∧ m.route ≠ coupon.cpn_origin ++ "-" ++ coupon.cpn_destination then false
  else
    let travelDate := coupon.cpn_flown_date
    let fromOK :=
      match m.effective_from with
      | Option.some ds =>
        if ds ≠ "" then
          match parseDateYMD ds with
          | Option.some d => decide (¬ travelDate < d)
          | Option.none => true
        else true
      | Option.none => true
    let toOK :=
      match m.effective_to with
      | Option.some ds =>
        if ds ≠ "" then
          match parseDateYMD ds with
          | Option.some d => decide (¬ travelDate > d)
          | Option.none => true
        else true
      | Option.none => true
    fromOK && toOK

/-- Model of `AddonRuleProcessor._is_excluded_by_criterion`: every branch
of the source returns `False` (the specific exclusion logics are
placeholders). -/
def isExcludedByCriterion (_coupon : CouponData) (exclusion : String) : Bool :=
  let el := lowerStr exclusion
  if containsSub "otadoc" el ∨ containsSub "other airline document" el then false
  else if containsSub "disallowed rbd" el ∨ containsSub "rbd" el then false
  else if containsSub "deal" el ∨ containsSub "discount" el then false
  else false

/-- Model of `AddonRuleProcessor._check_exclusions`. -/
def checkExclusions (coupon : CouponData) (exclusions : List String) : Option String :=
  exclusions.find? (isExcludedByCriterion coupon)

/-- The per-rule outcome record built by `_process_single_addon_rule`. -/
structure AddonDetail where
  addon_rule_id : String
  addon_name : String
  applied : Bool
  reason : String
  trigger_eligible : Bool
  payout_eligible : Bool
deriving DecidableEq

/-- Model of `AddonRuleProcessor._process_single_addon_rule`: when
applicable, matched by some mapping, and not vetoed by an exclusion, the
override forces BOTH eligibility flags to true; otherwise the current
flags are passed through unchanged. -/
def processSingleAddonRule (coupon : CouponData) (rule : AddonRule)
    (currentTrigger currentPayout : Bool) : AddonDetail :=
  if !(shouldApplyAddonRule coupon rule currentTrigger currentPayout) then
    { addon_rule_id := rule.addon_rule_id, addon_name := rule.name,
      applied := false, reason := "Addon rule conditions not met",
      trigger_eligible := currentTrigger, payout_eligible := currentPayout }
  else
    match rule.mappings.find? (couponMatchesMapping coupon) with
    | Option.none =>
      { addon_rule_id := rule.addon_rule_id, addon_name := rule.name,
        applied := false, reason := "No matching mapping found",
        trigger_eligible := currentTrigger, payout_eligible := currentPayout }
    | Option.some _ =>
      match checkExclusions coupon rule.exclusions_still_applicable with
      | Option.some ex =>
        { addon_rule_id := rule.addon_rule_id, addon_name := rule.name,
          applied := false, reason := "Excluded by: " ++ ex,
          trigger_eligible := currentTrigger, payout_eligible := currentPayout }
      | Option.none =>
        { addon_rule_id := rule.addon_rule_id, addon_name := rule.name,
          applied := true, reason := "Override applied - matched mapping",
          trigger_eligible := true, payout_eligible := true }

/-- Result record of `process_addon_rules`. -/
structure AddonOutcome where
  trigger_eligible : Bool
  payout_eligible : Bool
  addon_applied : Bool
  addon_details : List AddonDetail
deriving DecidableEq

/-- The rule loop of `process_addon_rules`: folds the current flags and
collected details over the declared rules, updating the flags only when a
rule applied. -/
def addonRulesFold (coupon : CouponData) (rules : List AddonRule)
    (t p : Bool) (ds : List AddonDetail) : Bool × Bool × List AddonDetail :=
  match rules with
  | [] => (t, p, ds)
  | rule :: rest =>
    let d := processSingleAddonRule coupon rule t p
    if d.applied then
      addonRulesFold coupon rest d.trigger_eligible d.payout_eligible (ds ++ [d])
    else
      addonRulesFold coupon rest t p (ds ++ [d])

/-- Model of `AddonRuleProcessor.process_addon_rules`: without addon rules
the initial flags pass through; otherwise the rules are processed in
declaration order.  (The enclosing exception handler, which would also
return the initial flags, is unreachable in this typed model.) -/
def processAddonRules (coupon : CouponData) (contract : ContractData)
    (initialTrigger initialPayout : Bool) : AddonOutcome :=
  let rules := contract.addon_rule_cases
  if rules = [] then
    { trigger_eligible := initialTrigger, payout_eligible := initialPayout,
      addon_applied := false, addon_details := [] }
  else
    let (ft, fp, ds) := addonRulesFold coupon rules initialTrigger initialPayout []
    { trigger_eligible := ft, payout_eligible := fp,
      addon_applied := ds.any (fun d => d.applied), addon_details := ds }

/-- Model of `AddonRuleProcessor.update_contract_analysis_with_addon`. -/
def updateContractAnalysisWithAddon (a : ContractAnalysis)
    (res : AddonOutcome) : ContractAnalysis :=
  let a1 := { a with trigger_eligibility := res.trigger_eligible,
                     payout_eligibility := res.payout_eligible }
  if res.addon_applied then
    let names := (res.addon_details.filter (fun d => d.applied)).map
      (fun d => d.addon_name)
    if names ≠ [] then
      let addonReason := "Addon rules applied: " ++ String.intercalate ", " names
      { a1 with
        trigger_eligibility_reason :=
          if a1.trigger_eligibility_reason ≠ "" then
            a1.trigger_eligibility_reason ++ "; " ++ addonReason
          else addonReason,
        payout_eligibility_reason :=
          if a1.payout_eligibility_reason ≠ "" then
            a1.payout_eligibility_reason ++ "; " ++ addonReason
          else addonReason }
    else a1
  else a1

/-- The payout-formula fallback text of
`_extract_formulas_and_components`. -/
def extractedPayoutFallback (contract : ContractData) : String :=
  if contract.payout_type = "PERCENTAGE" then
    (match contract.payout_percentage with
     | Option.some p => ratToPyStr p
     | Option.none => "None") ++ "% of " ++
      String.intercalate ", " contract.payout_components
  else
    "Fixed amount based on " ++ String.intercalate ", " contract.payout_components

/-- Model of `RuleEngine._extract_formulas_and_components`: the displayed
trigger and payout formula strings. -/
def extractFormulasAndComponents (contract : ContractData) : String × String :=
  let triggerFormula :=
    match contract.trigger_formula with
    | Option.some s =>
      if s ≠ "" then s
      else "Sum of " ++ String.intercalate ", " contract.trigger_components ++ " components"
    | Option.none =>
      "Sum of " ++ String.intercalate ", " contract.trigger_components ++ " components"
  let payoutFormula :=
    match contract.payout_formula with
    | Option.some s =>
      if s ≠ "" then s else extractedPayoutFallback contract
    | Option.none => extractedPayoutFallback contract
  (triggerFormula, payoutFormula)

/-- Joins reasons for the analysis record
(`"; ".join(reasons) if reasons else "Eligible"`). -/
def joinReasons (rs : List String) : String :=
  if rs = [] then "Eligible" else String.intercalate "; " rs

/-- Builds a `ContractAnalysis` from the per-phase results, mirroring the
keyword arguments of the `ContractAnalysis(...)` construction in
`process_single_coupon`. -/
def mkContractAnalysis (contract : ContractData) (tfs pfs : String)
    (tv pv : ℚ) (sectorE triggerE payoutE : Bool)
    (sectorReason triggerReason payoutReason : String) : ContractAnalysis :=
  { document_name := contract.document_name,
    document_id := contract.document_id,
    contract_name := contract.contract_name,
    contract_id := contract.contract_id,
    rule_id := contract.rule_id,
    ruleset_id := contract.ruleset_id,
    source_name := contract.source_name,
    currency := contract.currency,
    window_start := contract.start_date,
    window_end := contract.end_date,
    trigger_formula := tfs,
    trigger_value := tv,
    payout_formula := pfs,
    payout_value := pv,
    sector_eligibility := sectorE,
    trigger_eligibility := triggerE,
    payout_eligibility := payoutE,
    sector_eligibility_reason := sectorReason,
    trigger_eligibility_reason := triggerReason,
    payout_eligibility_reason := payoutReason,
    rule_creation_date := contract.creation_date,
    rule_update_date := contract.update_date }

/-- The per-contract body of the `for contract in all_contracts` loop of
`RuleEngine.process_single_coupon`, after the airline gate: the 3-phase
eligibility evaluation, value computation only when the sector phase
passed, and addon processing only when the sector phase passed. -/
def processContractInner (fm : FieldMapper) (coupon : CouponData)
    (contract : ContractData) : Except String ContractAnalysis :=
  let fs := extractFormulasAndComponents contract
  match checkSectorEligibility fm coupon contract with
  | .error e => .error e
  | .ok (sectorE, sectorRs) =>
    if sectorE then
      match computeTrigger coupon contract with
      | .error e => .error e
      | .ok tv =>
        match computePayout coupon contract with
        | .error e => .error e
        | .ok pv =>
          match checkTriggerEligibility fm coupon contract sectorE with
          | .error e => .error e
          | .ok (triggerE, triggerRs) =>
            match checkPayoutEligibility fm coupon contract sectorE with
            | .error e => .error e
            | .ok (payoutE, payoutRs) =>
              let analysis := mkContractAnalysis contract fs.1 fs.2 tv pv
                sectorE triggerE payoutE
                (joinReasons sectorRs) (joinReasons triggerRs) (joinReasons payoutRs)
              let addonRes := processAddonRules coupon contract triggerE payoutE
              if addonRes.addon_applied then
                .ok (updateContractAnalysisWithAddon analysis addonRes)
              else
                .ok analysis
    else
      .ok (mkContractAnalysis contract fs.1 fs.2 0 0 false false false
        (joinReasons sectorRs)
        (joinReasons ["Skipped due to sector ineligibility"])
        (joinReasons ["Skipped due to sector ineligibility"]))

/-- The failed-analysis record the `except` block of the contract loop
builds, with the error text in every reason field. -/
def failedAnalysis (contract : ContractData) (e : String) : ContractAnalysis :=
  { document_name := contract.document_name,
    document_id := contract.document_id,
    contract_name := contract.contract_name,
    contract_id := contract.contract_id,
    rule_id := contract.rule_id,
    ruleset_id := contract.ruleset_id,
    source_name := contract.source_name,
    currency := contract.currency,
    window_start := contract.start_date,
    window_end := contract.end_date,
    trigger_formula := "Error in processing",
    trigger_value := 0,
    payout_formula := "Error in processing",
    payout_value := 0,
    sector_eligibility := false,
    trigger_eligibility := false,
    payout_eligibility := false,
    sector_eligibility_reason := "Processing error: " ++ e,
    trigger_eligibility_reason := "Processing error: " ++ e,
    payout_eligibility_reason := "Processing error: " ++ e,
    rule_creation_date := contract.creation_date,
    rule_update_date := contract.update_date }

/-- The `Marketing Airline` IN values of the contract, as read by the
airline gate of `process_single_coupon`. -/
def marketingAirlines (contract : ContractData) : List PyVal :=
  criteriaLookup contract.trigger_eligibility_criteria.inC "Marketing Airline"

/-- The legacy airline list of the gate: `airline_codes` when non-empty
(`getattr` yields `[]` with the current pydantic model — see
`ContractData`), else `iata_codes`. -/
def legacyAirlines (contract : ContractData) : List String :=
  if contract.airline_codes ≠ [] then contract.airline_codes
  else contract.iata_codes

/-- The airline gate target set
(`set(marketing_airlines) | set(legacy_airlines)`), as a list whose
membership is the set membership. -/
def targetAirlines (contract : ContractData) : List PyVal :=
  marketingAirlines contract ++ (legacyAirlines contract).map PyVal.str

/-- The gate itself: skip the contract when airline restrictions exist and
the coupon airline code is not an exact member. -/
def gateSkip (coupon : CouponData) (contract : ContractData) : Bool :=
  targetAirlines contract ≠ [] &&
  !((targetAirlines contract).contains (PyVal.str coupon.cpn_airline_code))

/-- The value stored for a processed contract: the inner result, or the
failed-analysis record when an exception was caught. -/
def contractEntry (fm : FieldMapper) (coupon : CouponData)
    (contract : ContractData) : ContractAnalysis :=
  match processContractInner fm coupon contract with
  | .ok a => a
  | .error e => failedAnalysis contract e

/-- The contract loop of `process_single_coupon`: `count` is
`contract_count`; gate-skipped contracts contribute nothing, every other
contract contributes exactly one keyed entry (`Contract_{n}`), errors
included, and processing always continues with the next contract. -/
def processLoop (fm : FieldMapper) (coupon : CouponData) :
    List ContractData → Nat → List (String × ContractAnalysis)
  | [], _ => []
  | c :: rest, count =>
    if gateSkip coupon c then processLoop fm coupon rest count
    else
      ("Contract_" ++ toString (count + 1), contractEntry fm coupon c) ::
        processLoop fm coupon rest (count + 1)

/-! ## Helper lemmas -/

theorem dropWhile_idem (p : α → Bool) (l : List α) :
    List.dropWhile p (List.dropWhile p l) = List.dropWhile p l := by
  induction l with
  | nil => rfl
  | cons a t ih =>
    cases h : p a with
    | true => simp [List.dropWhile_cons, h, ih]
    | false => simp [List.dropWhile_cons, h]

theorem head?_dropWhile_false (p : α → Bool) (l : List α) :
    ∀ a, (List.dropWhile p l).head? = Option.some a → p a = false := by
  induction l with
  | nil => simp [List.dropWhile]
  | cons b t ih =>
    intro a
    cases h : p b with
    | true =>
      simp only [List.dropWhile_cons, h, if_true]
      exact ih a
    | false =>
      simp only [List.dropWhile_cons, h, if_false, List.head?_cons]
      intro hh
      injection hh with hh
      rw [hh] at h
      exact h

theorem dropWhile_eq_self_of_head (p : α → Bool) (l : List α)
    (h : ∀ a, l.head? = Option.some a → p a = false) :
    List.dropWhile p l = l := by
  cases l with
  | nil => rfl
  | cons a t => simp [List.dropWhile_cons, h a rfl]

theorem head?_mem {l : List α} {a : α} (h : l.head? = Option.some a) : a ∈ l := by
  cases l with
  | nil => simp at h
  | cons b t =>
    simp only [List.head?_cons] at h
    injection h with h
    subst h
    exact List.mem_cons_self b t

theorem stripList_idem (l : List Char) :
    pyStripList (pyStripList l) = pyStripList l := by
  have hres : ∀ a, (pyStripList l).head? = Option.some a → isPyWS a = false := by
    intro a ha
    unfold pyStripList at ha
    rw [List.head?_reverse] at ha
    have hv := List.dropWhile_suffix (l := (List.dropWhile isPyWS l).reverse) isPyWS
    obtain ⟨t, ht⟩ := hv
    have hlast : ((List.dropWhile isPyWS l).reverse).getLast? = Option.some a := by
      rw [← ht, List.getLast?_append, ha]
      rfl
    rw [List.getLast?_reverse] at hlast
    exact head?_dropWhile_false isPyWS l a hlast
  have hA : List.dropWhile isPyWS (pyStripList l) = pyStripList l :=
    dropWhile_eq_self_of_head _ _ hres
  show ((List.dropWhile isPyWS (pyStripList l)).reverse.dropWhile isPyWS).reverse
      = pyStripList l
  rw [hA]
  show (((List.dropWhile isPyWS
      ((List.dropWhile isPyWS l).reverse)).reverse).reverse.dropWhile isPyWS).reverse
      = pyStripList l
  rw [List.reverse_reverse, dropWhile_idem]
  rfl

theorem pyStrip_idem (s : String) : pyStrip (pyStrip s) = pyStrip s :=
  congrArg String.mk (stripList_idem s.data)

theorem isPyWS_false_of_isDigit (c : Char) (h : c.isDigit = true) :
    isPyWS c = false := by
  revert h
  unfold isPyWS Char.isDigit
  cases hc : c == ' ' with
  | true =>
    have : c = ' ' := by
      have := eq_of_beq hc
      exact this
    subst this
    decide
  | false =>
    cases hc2 : c == '\t' with
    | true =>
      have : c = '\t' := eq_of_beq hc2
      subst this
      decide
    | false =>
      cases hc3 : c == '\n' with
      | true =>
        have : c = '\n' := eq_of_beq hc3
        subst this
        decide
      | false =>
        cases hc4 : c == '\r' with
        | true =>
          have : c = '\r' := eq_of_beq hc4
          subst this
          decide
        | false =>
          cases hc5 : c == '\x0b' with
          | true =>
            have : c = '\x0b' := eq_of_beq hc5
            subst this
            decide
          | false =>
            cases hc6 : c == '\x0c' with
            | true =>
              have : c = '\x0c' := eq_of_beq hc6
              subst this
              decide
            | false => intro _; simp [hc, hc2, hc3, hc4, hc5, hc6]

theorem isUpper_false_of_isDigit (c : Char) (h : c.isDigit = true) :
    c.isUpper = false := by
  simp only [Char.isDigit, Bool.and_eq_true, decide_eq_true_eq] at h
  obtain ⟨_, h2⟩ := h
  cases hu : c.isUpper with
  | false => rfl
  | true =>
    exfalso
    simp only [Char.isUpper, Bool.and_eq_true, decide_eq_true_eq] at hu
    obtain ⟨h3, _⟩ := hu
    have h2le : c.val ≤ 57 := h2
    have h3le : (65 : UInt32) ≤ c.val := h3
    rw [UInt32.le_def, BitVec.le_def] at h2le h3le
    simp at h2le h3le
    omega

theorem stripList_eq_self_of_all_digits (ds : List Char)
    (h : ds.all Char.isDigit = true) : pyStripList ds = ds := by
  have hnws : ∀ c ∈ ds, isPyWS c = false := by
    intro c hc
    exact isPyWS_false_of_isDigit c (by
      rw [List.all_eq_true] at h
      exact h c hc)
  unfold pyStripList
  rw [dropWhile_eq_self_of_head _ _ (fun a ha => hnws a (head?_mem ha))]
  rw [dropWhile_eq_self_of_head _ _ (fun a ha =>
    hnws a (by
      have := head?_mem ha
      exact List.mem_reverse.mp this))]
  exact List.reverse_reverse ds

theorem airlinePfxMatch_some {l ds : List Char}
    (h : airlinePfxMatch l = Option.some ds) :
    ds ≠ [] ∧ ds.all Char.isDigit = true := by
  cases l with
  | nil => simp [airlinePfxMatch] at h
  | cons a t =>
    cases t with
    | nil => simp [airlinePfxMatch] at h
    | cons b rest =>
      have h2 : (if (a.isUpper && b.isUpper && !rest.isEmpty &&
          rest.all Char.isDigit) = true then Option.some rest
          else Option.none) = Option.some ds := h
      by_cases hc : (a.isUpper && b.isUpper && !rest.isEmpty &&
          rest.all Char.isDigit) = true
      · rw [if_pos hc] at h2
        injection h2 with h2
        subst h2
        simp only [Bool.and_eq_true] at hc
        obtain ⟨⟨⟨ha, hb⟩, hni⟩, hall⟩ := hc
        refine ⟨?_, hall⟩
        intro hnil
        rw [hnil] at hni
        simp at hni
      · rw [if_neg hc] at h2
        exact absurd h2 (by simp)

/-! ## C3: tiered payout -/

theorem findRowInRows_eq_find (r : ℚ) (rows : List TierRow) :
    findRowInRows r rows = rows.find? (tierRowMatches r) := by
  induction rows with
  | nil => rfl
  | cons row rest ih =>
    rw [List.find?_cons]
    cases h : tierRowMatches r row with
    | true => simp [findRowInRows, h]
    | false => simp [findRowInRows, h, ih]

theorem findApplicableTier_eq_find (r : ℚ) (tiers : List Tier) :
    findApplicableTier r tiers
      = (tiers.flatMap fun t => t.rows).find? (tierRowMatches r) := by
  induction tiers with
  | nil => rfl
  | cons t rest ih =>
    rw [List.flatMap_cons, List.find?_append]
    unfold findApplicableTier
    rw [findRowInRows_eq_find]
    cases h : (t.rows).find? (tierRowMatches r) with
    | some row => simp [h, Option.or]
    | none => simp [h, ih, Option.or]

/-- C3: for every considered revenue and tier table, the TIERED payout
path picks the first row in declaration order (tiers, then rows) whose
inclusive bracket contains the revenue; a PERCENT row pays
`revenue * value / 100`, an AMOUNT row pays the value as is (any other
unit defaults to the PERCENT behaviour), and with no matching row the
payout is `0`. -/
theorem tiered_payout_first_match_semantics (r : ℚ) (tiers : List Tier) :
    applyTieredPayout r tiers =
      match (tiers.flatMap fun t => t.rows).find? (tierRowMatches r) with
      | Option.some row =>
        if row.payoutUnit = "PERCENT" then r * (row.payoutValue / 100)
        else if row.payoutUnit = "AMOUNT" then row.payoutValue
        else r * (row.payoutValue / 100)
      | Option.none => 0 := by
  unfold applyTieredPayout
  rw [← findApplicableTier_eq_find]
  by_cases ht : tiers = []
  · subst ht
    simp [findApplicableTier]
  · rw [if_neg ht]
    cases h : findApplicableTier r tiers with
    | some row => simp [h, calculateTierPayout]
    | none => simp [h]

/-! ## C7: flight number normalization -/

/-- C7: flight-number normalization is idempotent on every string, and
`QR1234` and `1234` normalize to the same canonical form. -/
theorem flight_normalization_idempotent_bidirectional (s : String) :
    stripAirlinePfx (stripAirlinePfx s) = stripAirlinePfx s
      ∧ stripAirlinePfx "QR1234" = stripAirlinePfx "1234" := by
  refine ⟨?_, by decide⟩
  cases hm : airlinePfxMatch (pyStrip s).data with
  | some ds =>
    have h1 : stripAirlinePfx s = String.mk ds := by
      unfold stripAirlinePfx
      rw [hm]
    obtain ⟨hne, hdig⟩ := airlinePfxMatch_some hm
    have hstrip : pyStrip (String.mk ds) = String.mk ds :=
      congrArg String.mk (stripList_eq_self_of_all_digits ds hdig)
    have hmatch2 : airlinePfxMatch ds = Option.none := by
      cases ds with
      | nil => exact absurd rfl hne
      | cons d rest2 =>
        cases rest2 with
        | nil => rfl
        | cons e rest3 =>
          have hd : d.isDigit = true := by
            rw [List.all_eq_true] at hdig
            exact hdig d (List.mem_cons_self _ _)
          simp [airlinePfxMatch, isUpper_false_of_isDigit d hd]
    rw [h1]
    unfold stripAirlinePfx
    rw [hstrip, hmatch2]
  | none =>
    have h1 : stripAirlinePfx s = pyStrip s := by
      unfold stripAirlinePfx
      rw [hm]
    rw [h1]
    unfold stripAirlinePfx
    rw [pyStrip_idem, hm]

/-! ## C6: addon override monotonicity -/

theorem processSingleAddonRule_monotone (coupon : CouponData) (rule : AddonRule)
    (ct cp : Bool) :
    (ct = true → (processSingleAddonRule coupon rule ct cp).trigger_eligible = true) ∧
    (cp = true → (processSingleAddonRule coupon rule ct cp).payout_eligible = true) := by
  cases h1 : shouldApplyAddonRule coupon rule ct cp with
  | false => simp [processSingleAddonRule, h1]
  | true =>
    cases h2 : rule.mappings.find? (couponMatchesMapping coupon) with
    | none => simp [processSingleAddonRule, h1, h2]
    | some mm =>
      cases h3 : checkExclusions coupon rule.exclusions_still_applicable with
      | none => simp [processSingleAddonRule, h1, h2, h3]
      | some ex => simp [processSingleAddonRule, h1, h2, h3]

theorem addonRulesFold_monotone (coupon : CouponData) (rules : List AddonRule) :
    ∀ t p ds,
      (t = true → (addonRulesFold coupon rules t p ds).1 = true) ∧
      (p = true → (addonRulesFold coupon rules t p ds).2.1 = true) := by
  induction rules with
  | nil =>
    intro t p ds
    simp [addonRulesFold]
  | cons rule rest ih =>
    intro t p ds
    unfold addonRulesFold
    cases hd : (processSingleAddonRule coupon rule t p).applied with
    | true =>
      simp only [hd, if_true]
      constructor
      · intro ht
        exact (ih _ _ _).1 ((processSingleAddonRule_monotone coupon rule t p).1 ht)
      · intro hp
        exact (ih _ _ _).2 ((processSingleAddonRule_monotone coupon rule t p).2 hp)
    | false =>
      simp only [hd, Bool.false_eq_true, if_false]
      exact ih t p _

/-- C6: addon processing is monotonic on eligibility — applying the addon
rules can flip a flag only from false to true: a flag that enters true
leaves true, both for each single rule and for the whole rule sequence. -/
theorem addon_override_monotonic (coupon : CouponData) (contract : ContractData)
    (t p : Bool) :
    (t = true → (processAddonRules coupon contract t p).trigger_eligible = true) ∧
    (p = true → (processAddonRules coupon contract t p).payout_eligible = true) ∧
    (∀ rule ct cp,
      (ct = true → (processSingleAddonRule coupon rule ct cp).trigger_eligible = true) ∧
      (cp = true → (processSingleAddonRule coupon rule ct cp).payout_eligible = true)) := by
  refine ⟨?_, ?_, fun rule ct cp => processSingleAddonRule_monotone coupon rule ct cp⟩
  · intro ht
    unfold processAddonRules
    by_cases hr : contract.addon_rule_cases = []
    · simp [hr, ht]
    · rw [if_neg hr]
      have hm := (addonRulesFold_monotone coupon contract.addon_rule_cases t p []).1 ht
      rcases hfold : addonRulesFold coupon contract.addon_rule_cases t p [] with ⟨ft, fp, ds⟩
      rw [hfold] at hm
      simpa using hm
  · intro hp
    unfold processAddonRules
    by_cases hr : contract.addon_rule_cases = []
    · simp [hr, hp]
    · rw [if_neg hr]
      have hm := (addonRulesFold_monotone coupon contract.addon_rule_cases t p []).2 hp
      rcases hfold : addonRulesFold coupon contract.addon_rule_cases t p [] with ⟨ft, fp, ds⟩
      rw [hfold] at hm
      simpa using hm

def c6Coupon : CouponData :=
  { cpn_airline_code := "EK", code_share := "Y" }

def c6Contract : ContractData :=
  { start_date := 20250101, end_date := 20251231,
    addon_rule_cases := [
      { addon_rule_id := "A1", name := "Codeshare addon",
        when_to_apply := "Apply after base IN/OUT filtering",
        mappings := [{ operating_airline := "" }] }] }

theorem addon_override_monotonic_witness :
    (processAddonRules c6Coupon c6Contract true true).trigger_eligible = true ∧
    (processAddonRules c6Coupon c6Contract true true).payout_eligible = true :=
  ⟨(addon_override_monotonic c6Coupon c6Contract true true).1 rfl,
   (addon_override_monotonic c6Coupon c6Contract true true).2.1 rfl⟩

/-! ## C2: both IN and OUT configured for one field -/

/-- C2 (amended): when a field carries both a non-empty IN and a non-empty
OUT list, the V2 list check does NOT fail closed; it passes exactly when
the record value clears the OUT exclusion and the IN inclusion (or the IN
list contains the wildcard `ALL`/`ANY`). -/
theorem both_in_out_list_check_semantics (v : PyVal) (ins outs : List PyVal)
    (fieldName matchMode : String) (hin : ins ≠ []) (hout : outs ≠ []) :
    (checkListValue v ins outs fieldName matchMode).1 =
      (!(checkArrayMatch v outs "any") &&
        (ins.contains (PyVal.str "ALL") || ins.contains (PyVal.str "ANY") ||
          checkArrayMatch v ins matchMode)) := by
  unfold checkListValue
  obtain h1 | h1 := (checkArrayMatch v outs "any").eq_false_or_eq_true <;>
    obtain h2 | h2 := ((ins.contains (PyVal.str "ALL")).eq_false_or_eq_true) <;>
      obtain h3 | h3 := ((ins.contains (PyVal.str "ANY")).eq_false_or_eq_true) <;>
        obtain h4 | h4 := ((checkArrayMatch v ins matchMode).eq_false_or_eq_true) <;>
          simp_all [normalizeToList]

theorem both_in_out_list_check_semantics_witness :
    ([PyVal.str "X"] ≠ ([] : List PyVal)) ∧ ([PyVal.str "Y"] ≠ ([] : List PyVal)) ∧
    (checkListValue (PyVal.str "X") [PyVal.str "X"] [PyVal.str "Y"] "RBD" "any").1 =
      (!(checkArrayMatch (PyVal.str "X") [PyVal.str "Y"] "any") &&
        ([PyVal.str "X"].contains (PyVal.str "ALL") ||
          [PyVal.str "X"].contains (PyVal.str "ANY") ||
          checkArrayMatch (PyVal.str "X") [PyVal.str "X"] "any")) :=
  ⟨by decide, by decide,
   both_in_out_list_check_semantics (PyVal.str "X") [PyVal.str "X"] [PyVal.str "Y"]
     "RBD" "any" (by decide) (by decide)⟩

def c2FieldMapper : FieldMapper :=
  { mappings := [
      { ruleField := "rbd", inputPath := .simple "cpn_RBD",
        criteriaGroup := Option.some "booking" }] }

def c2Coupon : CouponData :=
  { cpn_airline_code := "EK", cpn_RBD := "Y",
    cpn_sales_date := 20250601, cpn_flown_date := 20250615 }

def c2Contract : ContractData :=
  { start_date := 20250101, end_date := 20251231,
    trigger_eligibility_criteria :=
      { inC := [("RBD", [PyVal.str "Y"])], outC := [("RBD", [PyVal.str "M"])] } }

/-- C2 (counterexample): in `c2Contract` the field RBD has a non-empty IN
list and a non-empty OUT list, the record value `Y` is in IN and not in
OUT, and sector eligibility comes out TRUE with no failure reason — the
claimed fail-closed invariant does not hold in the V2 checker. -/
theorem both_in_out_not_fail_closed_counterexample :
    criteriaLookup c2Contract.trigger_eligibility_criteria.inC "RBD" ≠ [] ∧
    criteriaLookup c2Contract.trigger_eligibility_criteria.outC "RBD" ≠ [] ∧
    checkSectorEligibility c2FieldMapper c2Coupon c2Contract = .ok (true, []) := by
  refine ⟨by decide, by decide, ?_⟩
  rfl


/-! ## Decidable equality for `Except` results -/

deriving instance DecidableEq for Except

/-! ## Kernel-evaluable rational arithmetic for the concrete inputs -/

section

attribute [local semireducible] Rat.add Rat.mul Rat.sub Rat.inv

/-- Quantizing an exact zero gives zero. -/
theorem quantize4_zero : quantize4 0 = 0 := by decide

/-! ## C1: PERCENTAGE payout and the missing division by 100 -/

def c1Coupon : CouponData :=
  { cpn_airline_code := "EK", cpn_revenue_base := 100,
    cpn_sales_date := 20250601, cpn_flown_date := 20250615 }

def c1Contract : ContractData :=
  { start_date := 20250101, end_date := 20251231,
    payout_type := "PERCENTAGE", payout_percentage := Option.some 2,
    payout_components := ["BASE"] }

/-- C1: at the failing input (PERCENTAGE contract, stored percentage 2,
considered revenue 100) `compute_payout` returns 200.0000 — the stored
percentage multiplies the considered revenue directly, with no division by
100 — while the formula the spec states, `quantize(r * p/100, 4,
ROUND_HALF_UP)`, gives 2. -/
theorem percentage_payout_missing_div100 :
    computePayout c1Coupon c1Contract = Except.ok 200 ∧
    quantize4 ((100 : ℚ) * 2 / 100) = 2 :=
  ⟨by decide, by decide⟩

/-! ## C4: date outside the contract window fails the Sector phase -/

/-- The contract window check of `check_sector_eligibility` rejects a
relevant date outside `[start_date, end_date]`. -/
theorem checkContractWindow_false (coupon : CouponData) (contract : ContractData)
    (hdate : (if contract.trigger_type = "FLOWN" then coupon.cpn_flown_date
        else coupon.cpn_sales_date) < contract.start_date ∨
      (if contract.trigger_type = "FLOWN" then coupon.cpn_flown_date
        else coupon.cpn_sales_date) > contract.end_date) :
    (checkContractWindow coupon contract).1 = false := by
  unfold checkContractWindow
  simp only []
  rw [if_pos hdate]

/-- A failed window check forces a `false` verdict from steps 1-3 of
`check_sector_eligibility`, whatever every other field check returns. -/
theorem checkSectorRest_window_closed (fm : FieldMapper) (coupon : CouponData)
    (contract : ContractData) (b : Bool) (rs : List String)
    (hw : (checkContractWindow coupon contract).1 = false)
    (h : checkSectorRest fm coupon contract = Except.ok (b, rs)) :
    b = false := by
  unfold checkSectorRest at h
  split at h
  · exact Except.noConfusion h
  · split at h
    · exact Except.noConfusion h
    · split at h
      · exact Except.noConfusion h
      · injection h with h1
        injection h1 with hb hr
        rw [← hb, hw]
        simp

/-- C4: whenever the record's relevant date (flown date for FLOWN trigger
contracts, sales date otherwise) lies strictly before `start_date` or
strictly after `end_date`, `check_sector_eligibility` returns a `false`
verdict, regardless of the outcome of every other field check. -/
theorem date_outside_window_fails_sector (fm : FieldMapper) (coupon : CouponData)
    (contract : ContractData) (b : Bool) (rs : List String)
    (hdate : (if contract.trigger_type = "FLOWN" then coupon.cpn_flown_date
        else coupon.cpn_sales_date) < contract.start_date ∨
      (if contract.trigger_type = "FLOWN" then coupon.cpn_flown_date
        else coupon.cpn_sales_date) > contract.end_date)
    (hres : checkSectorEligibility fm coupon contract = Except.ok (b, rs)) :
    b = false := by
  have hw := checkContractWindow_false coupon contract hdate
  unfold checkSectorEligibility at hres
  rcases hbody : checkSectorBody fm coupon contract with e | r
  · rw [hbody] at hres
    exact absurd hres (by simp)
  · rw [hbody] at hres
    simp only [Except.ok.injEq] at hres
    subst hres
    unfold checkSectorBody at hbody
    by_cases hac : contract.airline_codes ≠ []
    · rw [if_pos hac] at hbody
      by_cases hmatch : !((((contract.airline_codes.filter (fun c => c ≠ "")).map
          (fun c => upperStr (pyStrip c))).contains
            (upperStr (pyStrip coupon.cpn_airline_code))))
      · rw [if_pos hmatch] at hbody
        injection hbody with h1
        injection h1 with hb hr
        exact hb.symm
      · rw [if_neg hmatch] at hbody
        exact checkSectorRest_window_closed fm coupon contract b rs hw hbody
    · rw [if_neg hac] at hbody
      exact checkSectorRest_window_closed fm coupon contract b rs hw hbody

def c4Fm : FieldMapper := { mappings := [] }

def c4Coupon : CouponData :=
  { cpn_airline_code := "EK", cpn_sales_date := 20250615, cpn_flown_date := 20250615 }

def c4Contract : ContractData :=
  { start_date := 20250701, end_date := 20251231 }

theorem date_outside_window_fails_sector_witness :
    ((if c4Contract.trigger_type = "FLOWN" then c4Coupon.cpn_flown_date
        else c4Coupon.cpn_sales_date) < c4Contract.start_date ∨
      (if c4Contract.trigger_type = "FLOWN" then c4Coupon.cpn_flown_date
        else c4Coupon.cpn_sales_date) > c4Contract.end_date) ∧
    checkSectorEligibility c4Fm c4Coupon c4Contract = Except.ok (false,
      ["Date not in contract window: 2025-06-15 outside 2025-07-01 to 2025-12-31"]) ∧
    (false : Bool) = false :=
  ⟨Or.inl (by decide), by rfl,
   date_outside_window_fails_sector c4Fm c4Coupon c4Contract false
     ["Date not in contract window: 2025-06-15 outside 2025-07-01 to 2025-12-31"]
     (Or.inl (by decide)) (by rfl)⟩

/-! ## C5: formula evaluation degrades every failure to zero -/

/-- C5: formula evaluation is total and degrades failures to zero: an
unparseable substituted token stream evaluates to 0, a parameter missing
from the context is substituted by 0 (so evaluates to 0), and an unknown
function call is substituted by 0 (so evaluates to 0); no exception
escapes `evaluate_formula`. -/
theorem formula_evaluation_errors_yield_zero (ctx : List (String × CtxVal))
    (ts : List FTok) (p f a : String)
    (hparse : ∃ e, parseToks (prepToks (ts.map (substTok ctx))) = Except.error e)
    (hp : ctxLookup ctx p = Option.none)
    (hf : f ≠ "amount_in_slab_on") :
    evaluateFormulaTokens ts ctx = 0 ∧
    evaluateFormulaTokens [FTok.param p] ctx = 0 ∧
    evaluateFormulaTokens [FTok.fncall f a] ctx = 0 := by
  refine ⟨?_, ?_, ?_⟩
  · obtain ⟨e, he⟩ := hparse
    unfold evaluateFormulaTokens safeEvaluate
    rw [he]
    exact quantize4_zero
  · have h2 : List.map (substTok ctx) [FTok.param p] = [FTok.num 0] := by
      simp [substTok, hp]
    unfold evaluateFormulaTokens
    rw [h2]
    decide
  · have h3 : List.map (substTok ctx) [FTok.fncall f a] = [FTok.num 0] := by
      simp [substTok, hf]
    unfold evaluateFormulaTokens
    rw [h3]
    decide

theorem formula_evaluation_errors_yield_zero_witness :
    ctxLookup [] "zzz" = Option.none ∧
    evaluateFormulaTokens [FTok.op "+"] [] = 0 ∧
    evaluateFormulaTokens [FTok.param "zzz"] [] = 0 ∧
    evaluateFormulaTokens [FTok.fncall "foo" "x"] [] = 0 := by
  have h := formula_evaluation_errors_yield_zero [] [FTok.op "+"] "zzz" "foo" "x"
    ⟨"SyntaxError", by rfl⟩ (by rfl) (by decide)
  exact ⟨by rfl, h.1, h.2.1, h.2.2⟩

/-! ## C8: a contract-local failure never aborts the loop -/

/-- C8: a failure raised while processing one contract is caught: the
contract contributes the failed-analysis record carrying the error text in
its reason fields, and the loop continues with the remaining contracts at
the next key index. -/
theorem contract_error_isolated (fm : FieldMapper) (coupon : CouponData)
    (c : ContractData) (rest : List ContractData) (count : Nat) (e : String)
    (hgate : gateSkip coupon c = false)
    (herr : processContractInner fm coupon c = Except.error e) :
    processLoop fm coupon (c :: rest) count =
      ("Contract_" ++ toString (count + 1), failedAnalysis c e) ::
        processLoop fm coupon rest (count + 1) ∧
    (failedAnalysis c e).sector_eligibility_reason = "Processing error: " ++ e ∧
    (failedAnalysis c e).trigger_eligibility_reason = "Processing error: " ++ e ∧
    (failedAnalysis c e).payout_eligibility_reason = "Processing error: " ++ e := by
  refine ⟨?_, rfl, rfl, rfl⟩
  have hstep : processLoop fm coupon (c :: rest) count =
      if gateSkip coupon c then processLoop fm coupon rest count
      else ("Contract_" ++ toString (count + 1), contractEntry fm coupon c) ::
        processLoop fm coupon rest (count + 1) := rfl
  rw [hstep, hgate]
  simp [contractEntry, herr]

def c8Fm : FieldMapper :=
  { mappings := [
      { ruleField := "salesDate", inputPath := .simple "cpn_sales_date",
        dataType := "date", criteriaGroup := Option.some "booking" }] }

def c8Coupon : CouponData :=
  { cpn_airline_code := "EK", cpn_sales_date := 20250815, cpn_flown_date := 20250815 }

def c8ErrContract : ContractData :=
  { start_date := 20250101, end_date := 20251231, contract_id := "ERR-1",
    trigger_eligibility_criteria :=
      { inC := [("Sales_Date", [PyVal.dict [("start", "garbage")]])] } }

def c8OkContract : ContractData :=
  { start_date := 20250101, end_date := 20251231, contract_id := "OK-1" }

def c8ErrText : String :=
  "Sector eligibility check failed: TypeError: date criteria compared with non-date value"

set_option maxHeartbeats 2000000 in
theorem contract_error_isolated_witness :
    gateSkip c8Coupon c8ErrContract = false ∧
    processContractInner c8Fm c8Coupon c8ErrContract = Except.error c8ErrText ∧
    processLoop c8Fm c8Coupon [c8ErrContract, c8OkContract] 0 =
      ("Contract_1", failedAnalysis c8ErrContract c8ErrText) ::
        processLoop c8Fm c8Coupon [c8OkContract] 1 ∧
    (failedAnalysis c8ErrContract c8ErrText).sector_eligibility_reason =
      "Processing error: " ++ c8ErrText := by
  have h := contract_error_isolated c8Fm c8Coupon c8ErrContract [c8OkContract] 0
    c8ErrText (by rfl) (by rfl)
  exact ⟨by rfl, by rfl, h.1, h.2.1⟩

/-! ## C9: the orchestrator airline gate -/

/-- C9 (amended): a contract contributes an entry for the record iff its
effective gate set — the Marketing Airline IN values together with the
legacy list, which is `airline_codes` when non-empty and `iata_codes`
otherwise — is empty or contains the record airline code as an exact,
case-sensitive member. -/
theorem airline_gate_effective_membership (fm : FieldMapper) (coupon : CouponData)
    (c : ContractData) (n : Nat) :
    processLoop fm coupon [c] n ≠ [] ↔
      (targetAirlines c = [] ∨
        PyVal.str coupon.cpn_airline_code ∈ targetAirlines c) := by
  have hgate : gateSkip coupon c = false ↔
      (targetAirlines c = [] ∨
        PyVal.str coupon.cpn_airline_code ∈ targetAirlines c) := by
    unfold gateSkip
    cases hT : targetAirlines c with
    | nil => simp
    | cons x xs => simp [List.contains, List.elem_iff, or_iff_not_imp_left]
  have hloop : processLoop fm coupon [c] n =
      if gateSkip coupon c then []
      else [("Contract_" ++ toString (n + 1), contractEntry fm coupon c)] := by
    simp [processLoop]
  rw [hloop]
  cases hg : gateSkip coupon c with
  | false =>
    rw [if_neg (by simp)]
    exact iff_of_true (by simp) (hgate.mp hg)
  | true =>
    rw [if_pos rfl]
    exact iff_of_false (by simp) (fun hr => by simp [hgate.mpr hr] at hg)

def c9Fm : FieldMapper := { mappings := [] }

def c9Coupon : CouponData := { cpn_airline_code := "EK" }

def c9Contract : ContractData :=
  { start_date := 20250101, end_date := 20251231, contract_id := "C9",
    iata_codes := ["EK"],
    trigger_eligibility_criteria := { inC := [("Marketing Airline", [PyVal.str "QR"])] } }

/-- C9 (counterexample): the claimed gate set (Marketing Airline IN values
union `airline_codes`) is `{QR}` and the record airline `EK` is not a
member, yet the contract is processed and contributes an entry: the
implementation's legacy list falls back to `iata_codes` (`airline_codes`
is `[]` at runtime with the pydantic contract model), so `EK` passes. -/
theorem airline_gate_union_counterexample :
    (marketingAirlines c9Contract ++ c9Contract.airline_codes.map PyVal.str) ≠ [] ∧
    PyVal.str c9Coupon.cpn_airline_code ∉
      (marketingAirlines c9Contract ++ c9Contract.airline_codes.map PyVal.str) ∧
    (processLoop c9Fm c9Coupon [c9Contract] 0).length = 1 := by
  exact ⟨by decide, by decide, by rfl⟩

/-! ## C10: sector failure suppresses addon processing in the orchestrator -/

/-- C10: the orchestrator consults addon rules only inside the
sector-eligible branch, so a record that fails the Sector phase ends with
`false` trigger and payout eligibility whatever addon rules the contract
declares. -/
theorem sector_failure_blocks_addon (fm : FieldMapper) (coupon : CouponData)
    (contract : ContractData) (rs : List String)
    (hsec : checkSectorEligibility fm coupon contract = Except.ok (false, rs)) :
    (contractEntry fm coupon contract).trigger_eligibility = false ∧
    (contractEntry fm coupon contract).payout_eligibility = false := by
  unfold contractEntry processContractInner
  rw [hsec]
  simp [mkContractAnalysis]

def c10Fm : FieldMapper := { mappings := [] }

def c10Coupon : CouponData :=
  { cpn_airline_code := "EK", code_share := "Y",
    cpn_sales_date := 20250615, cpn_flown_date := 20250615 }

def c10Contract : ContractData :=
  { start_date := 20250701, end_date := 20251231,
    addon_rule_cases := [
      { addon_rule_id := "A1", name := "Codeshare addon",
        when_to_apply := "Apply after base IN/OUT filtering",
        mappings := [{ operating_airline := "" }] }] }

set_option maxHeartbeats 2000000 in
theorem sector_failure_blocks_addon_witness :
    checkSectorEligibility c10Fm c10Coupon c10Contract = Except.ok (false,
      ["Date not in contract window: 2025-06-15 outside 2025-07-01 to 2025-12-31"]) ∧
    (processAddonRules c10Coupon c10Contract false false).trigger_eligible = true ∧
    (contractEntry c10Fm c10Coupon c10Contract).trigger_eligibility = false ∧
    (contractEntry c10Fm c10Coupon c10Contract).payout_eligibility = false := by
  refine ⟨by rfl, by rfl, ?_⟩
  exact sector_failure_blocks_addon c10Fm c10Coupon c10Contract
    ["Date not in contract window: 2025-06-15 outside 2025-07-01 to 2025-12-31"] (by rfl)

end
end RuleEngine
